import Mathlib

/-!
# Time tracking front end: work-session handlers, forms, summary and gateway

A shallow embedding of the event handlers of `public/js/dashboard.js`
(`handleClockIn`, `handleClockOut`, `handleBreakStart`, `handleBreakEnd`), of
the submit handler of `js/manual-entry.js`, of the period summary of
`js/timesheet.js`, of the day count and submit handler of `public/js/time-off.js`,
of the `API` object of `public/js/pocketbase-client.js` (namespace `Gateway`), of
the periodic monitor and the timer of `dashboard.js`, of the live calculation of
`manual-entry.js` and of the focus announcement of `public/js/accessibility.js`.

Conventions of the embedding

* A JavaScript `Date` is its epoch value: an `Int` number of milliseconds.
  `new Date(now)` of `now = new Date().toISOString()` is that same value.
* JavaScript numbers that hold hours are exact rationals (`ℚ`) where only their
  sign or order is tested (the tests have the same outcome on the rational value),
  with `none` for `NaN` where a handler can compute it; where the exact value of a
  sum of doubles matters (the accumulators of the timesheet summary) the numbers are
  IEEE-754 doubles with round-to-nearest-even addition (`roundDouble`).
* An optional record field (absent, `null` or the empty string, all falsy in
  the source's `a && b` tests) is an `Option`.
* A handler is a function from the module state, the clock reading and the
  gateway (`API`) to the next state and the ordered list of effects it issued.
  An `await`ed gateway call is the gateway function applied to its arguments.
* A gateway operation is a function of the way its SDK call settles (`Outcome`):
  resolved with a value, or rejected with an error of which the gateway reads
  `message` and `status`.
* The value of a date or time control is well formed or `none` (empty or
  malformed, which `new Date` turns into an invalid date).
* A local date-time is read in the host's time zone (`HostZone`); the definitions
  without a zone are the case of a constant offset.
-/

namespace TimeTracking

/-! ## Data model -/

/-- A `time_entries` record as held by the client (`activeEntry`, or one row of a
query result). Timestamps are epoch milliseconds. -/
structure TimeEntry where
  id : String
  clock_in : Int
  clock_out : Option Int := none
  break_start : Option Int := none
  break_end : Option Int := none
  status : String
  total_hours : Option ℚ := none
  category : Option String := none
  notes : Option String := none
  deriving DecidableEq

/-- The object literal a handler passes to `API.createTimeEntry` or
`API.updateTimeEntry`; a key that the literal does not mention is `none`. -/
structure EntryData where
  clock_in : Option Int := none
  clock_out : Option Int := none
  break_start : Option Int := none
  break_end : Option Int := none
  status : Option String := none
  total_hours : Option ℚ := none
  category : Option String := none
  notes : Option String := none
  deriving DecidableEq

/-- The `user_profiles` record cached in `userProfile`. -/
structure UserProfile where
  pto_balance : ℚ
  overtime_threshold : Option ℚ := none
  deriving DecidableEq

/-- The result object of a gateway call on `time_entries`:
`{ success: true, data }` or `{ success: false, error, status }`. -/
inductive StoreResult where
  | ok (data : TimeEntry)
  | fail (error : String) (status : Option Int)
  deriving DecidableEq

/-- The `success` property of a result object. -/
def StoreResult.success : StoreResult → Bool
  | .ok _ => true
  | .fail _ _ => false

/-- The two gateway operations the handlers call, as the results they
resolve to. -/
structure API where
  createTimeEntry : EntryData → StoreResult
  updateTimeEntry : String → EntryData → StoreResult

/-- What a handler does to the outside world, in program order. -/
inductive Effect where
  | createTimeEntry (data : EntryData)
  | updateTimeEntry (id : String) (data : EntryData)
  | announce (message : String) (priority : String)
  | announceClockedOut (totalHours : ℚ)
  | announceFormError (fieldId : String) (message : String)
  | clearFormError (fieldId : String)
  | alert (message : String)
  | addOvertimeNotification (totalHours : ℚ)
  | call (procedure : String)
  deriving DecidableEq

/-- The effect is a request that writes to the store. -/
def Effect.isStoreCall : Effect → Bool
  | .createTimeEntry _ => true
  | .updateTimeEntry _ _ => true
  | _ => false

/-- The store writes among a handler's effects. -/
def storeCalls (effects : List Effect) : List Effect :=
  effects.filter Effect.isStoreCall

/-- The module-level variables of `dashboard.js` that the handlers read or
assign. -/
structure Dashboard where
  activeEntry : Option TimeEntry
  userProfile : Option UserProfile := none
  deriving DecidableEq

/-! ## dashboard.js -/

/-- Lines 137-154 of `dashboard.js`. -/
def handleClockIn (api : API) (st : Dashboard) (now : Int) : Dashboard × List Effect :=
  let data : EntryData := { clock_in := some now, status := some "active" }
  match api.createTimeEntry data with
  | .ok entry =>
    ({ st with activeEntry := some entry },
      [.createTimeEntry data,
       .call "updateUIForActiveEntry",
       .call "startTimer",
       .announce "Clocked in successfully. Your work day has started." "assertive",
       .call "loadTodaySummary"])
  | .fail error _ =>
    (st,
      [.createTimeEntry data,
       .announce "Failed to clock in. Please try again." "assertive",
       .alert ("Failed to clock in: " ++ error)])

/-- Lines 164-171 of `dashboard.js`: `totalMs`, the elapsed milliseconds less the
recorded break span when both of its ends are present. -/
def clockOutTotalMs (entry : TimeEntry) (now : Int) : Int :=
  let totalMs := now - entry.clock_in
  match entry.break_start, entry.break_end with
  | some breakStart, some breakEnd => totalMs - (breakEnd - breakStart)
  | _, _ => totalMs

/-- Line 173 of `dashboard.js`: `totalHours = totalMs / (1000 * 60 * 60)`. -/
def clockOutTotalHours (entry : TimeEntry) (now : Int) : ℚ :=
  (clockOutTotalMs entry now : ℚ) / (1000 * 60 * 60)

/-- The threshold of line 190: `userProfile?.overtime_threshold || 8`. -/
def overtimeThreshold (userProfile : Option UserProfile) : ℚ :=
  match userProfile with
  | none => 8
  | some p =>
    match p.overtime_threshold with
    | none => 8
    | some t => if t = 0 then 8 else t

/-- Lines 156-197 of `dashboard.js`. -/
def handleClockOut (api : API) (st : Dashboard) (now : Int) : Dashboard × List Effect :=
  match st.activeEntry with
  | none => (st, [])
  | some entry =>
    let totalHours := clockOutTotalHours entry now
    let data : EntryData :=
      { clock_out := some now, status := some "completed", total_hours := some totalHours }
    match api.updateTimeEntry entry.id data with
    | .ok _ =>
      ({ st with activeEntry := none },
        [.updateTimeEntry entry.id data,
         .call "stopTimer",
         .call "updateUIForInactive",
         .announceClockedOut totalHours,
         .call "loadTodaySummary",
         .call "loadRecentEntries"]
        ++ (if totalHours > overtimeThreshold st.userProfile
            then [.addOvertimeNotification totalHours] else []))
    | .fail error _ =>
      (st,
        [.updateTimeEntry entry.id data,
         .announce "Failed to clock out. Please try again." "assertive",
         .alert ("Failed to clock out: " ++ error)])

/-- Lines 199-213 of `dashboard.js`. -/
def handleBreakStart (api : API) (st : Dashboard) (now : Int) : Dashboard × List Effect :=
  match st.activeEntry with
  | none => (st, [])
  | some entry =>
    if entry.status ≠ "active" then (st, [])
    else
      let data : EntryData := { break_start := some now, status := some "on_break" }
      match api.updateTimeEntry entry.id data with
      | .ok record =>
        ({ st with activeEntry := some record },
          [.updateTimeEntry entry.id data,
           .call "updateUIForBreak",
           .announce "Break started. Timer paused." "assertive"])
      | .fail _ _ => (st, [.updateTimeEntry entry.id data])

/-- Lines 215-229 of `dashboard.js`. -/
def handleBreakEnd (api : API) (st : Dashboard) (now : Int) : Dashboard × List Effect :=
  match st.activeEntry with
  | none => (st, [])
  | some entry =>
    if entry.status ≠ "on_break" then (st, [])
    else
      let data : EntryData := { break_end := some now, status := some "active" }
      match api.updateTimeEntry entry.id data with
      | .ok record =>
        ({ st with activeEntry := some record },
          [.updateTimeEntry entry.id data,
           .call "updateUIForActiveEntry",
           .announce "Break ended. Timer resumed." "assertive"])
      | .fail _ _ => (st, [.updateTimeEntry entry.id data])

/-! ## manual-entry.js -/

/-- The value of an `HH:MM` time control. -/
structure WallTime where
  hour : Fin 24
  minute : Fin 60
  deriving DecidableEq

/-- The wall-clock reading `time` on the calendar day numbered `date`, in
milliseconds since the day 0 midnight: the epoch value of
`new Date(date + "T" + time + ":00")` on a host whose zone is UTC, and up to the
constant offset on any host whose zone has a constant offset. The host's zone in
general is `HostZone` below, where this number is the local reading that
`HostZone.parse` converts. -/
def localDateTime (date : Int) (time : WallTime) : Int :=
  date * 86400000 + ((time.hour : Int) * 60 + (time.minute : Int)) * 60000

/-- The epoch value after `d.setDate(d.getDate() + 1)` on a host whose zone has a
constant offset: the same wall-clock time on the next calendar day is 24 hours
later. `HostZone.setDatePlusOne` below is the operation in any zone. -/
def setDatePlusOne (d : Int) : Int :=
  d + 86400000

/-- The fields the submit handler reads from the form when the date and the two
times are well formed (`RawManualEntryForm` below has the fields as the handler
receives them, empty or malformed values included). `breakDuration` is the value
of `parseInt` on the field (`none` for `NaN`). -/
structure ManualEntryForm where
  date : Int
  startTime : WallTime
  endTime : WallTime
  breakDuration : Option Int
  category : Option String
  notes : Option String
  deriving DecidableEq

/-- Line 73 of `manual-entry.js`: `parseInt(...) || 0`. -/
def breakMinutes (parsed : Option Int) : Int :=
  match parsed with
  | none => 0
  | some n => n

/-- A string `value || null`: the empty string and a missing value give `null`. -/
def orNull (value : Option String) : Option String :=
  match value with
  | none => none
  | some s => if s = "" then none else some s

/-- Lines 82-87 of `manual-entry.js`: `endDate` after the overnight adjustment, for
well-formed fields on a host whose zone has a constant offset. -/
def submitEndDate (form : ManualEntryForm) : Int :=
  let startDate := localDateTime form.date form.startTime
  let endDate := localDateTime form.date form.endTime
  if endDate < startDate then setDatePlusOne endDate else endDate

/-- Lines 82-92 of `manual-entry.js`: `totalHours`, for well-formed fields on a host
whose zone has a constant offset (`rawSubmitTotalHours` below is the computation on
any host and any field values). -/
def submitTotalHours (form : ManualEntryForm) : ℚ :=
  let startDate := localDateTime form.date form.startTime
  let diffMs := submitEndDate form - startDate
  let diffHours : ℚ := (diffMs : ℚ) / (1000 * 60 * 60)
  let breakHours : ℚ := (breakMinutes form.breakDuration : ℚ) / 60
  diffHours - breakHours

/-- Lines 111-118 of `manual-entry.js`: the record passed to
`API.createTimeEntry`. -/
def submitData (form : ManualEntryForm) : EntryData :=
  { clock_in := some (localDateTime form.date form.startTime),
    clock_out := some (localDateTime form.date form.endTime),
    status := some "pending_approval",
    total_hours := some (submitTotalHours form),
    category := orNull form.category,
    notes := orNull form.notes }

/-- Lines 66-141 of `manual-entry.js`: the form's submit handler. -/
def submitHandler (api : API) (form : ManualEntryForm) : List Effect :=
  if submitTotalHours form ≤ 0 then
    [.announceFormError "end-time" "End time must be after start time"]
  else
    [.clearFormError "entry-date",
     .clearFormError "start-time",
     .clearFormError "end-time",
     .call "submitBtn.disabled = true",
     .announce "Submitting time entry" "polite",
     .createTimeEntry (submitData form)]
    ++ (match api.createTimeEntry (submitData form) with
        | .ok _ =>
          [.call "formMessage: submitted",
           .announce "Time entry submitted successfully" "assertive",
           .call "form.reset",
           .call "submitBtn.disabled = false"]
        | .fail _ _ =>
          [.call "formMessage: failed",
           .announce "Failed to submit time entry" "assertive",
           .call "submitBtn.disabled = false"])

/-! ## Clock-out hours -/

/-- A session record with the given clock-in instant and recorded break
instants. -/
def sessionEntry (status : String) (clockIn : Int) (breakStart breakEnd : Option Int) :
    TimeEntry :=
  { id := "e1", clock_in := clockIn, break_start := breakStart, break_end := breakEnd,
    status := status }

/-- The break span `B` of a record: `break_end - break_start` when both are
recorded, `0` otherwise. -/
def recordedBreakMs (entry : TimeEntry) : Int :=
  match entry.break_start, entry.break_end with
  | some bs, some be => be - bs
  | _, _ => 0

/-- Minutes since midnight of a wall-clock time. -/
def WallTime.minuteOfDay (t : WallTime) : Int :=
  (t.hour : Int) * 60 + (t.minute : Int)

/-- A manual entry for 22:00 to 06:00 on one date, no break. -/
def overnightForm : ManualEntryForm :=
  { date := 19723, startTime := ⟨22, 0⟩, endTime := ⟨6, 0⟩, breakDuration := none,
    category := some "", notes := some "" }

/-- A manual entry for 09:00 to 09:00 on one date with no break: zero hours. -/
def emptyForm : ManualEntryForm :=
  { date := 19723, startTime := ⟨9, 0⟩, endTime := ⟨9, 0⟩, breakDuration := some 0,
    category := some "", notes := some "" }

/-- A gateway that accepts every write and answers with `record`. -/
def acceptingStore (record : TimeEntry) : API :=
  { createTimeEntry := fun _ => .ok record,
    updateTimeEntry := fun _ _ => .ok record }

/-- A gateway whose every write fails with `error` (no response reached it). -/
def failingStore (error : String) : API :=
  { createTimeEntry := fun _ => .fail error none,
    updateTimeEntry := fun _ _ => .fail error none }

/-- The gateway reports the failure of the write `effect` (false for an effect
that is not a store write). -/
def API.reportsFailure (api : API) (effect : Effect) : Bool :=
  match effect with
  | .createTimeEntry data => !(api.createTimeEntry data).success
  | .updateTimeEntry id data => !(api.updateTimeEntry id data).success
  | _ => false

/-- Every store write among `effects` was answered with a failure result. -/
def allWritesFailed (api : API) (effects : List Effect) : Prop :=
  ∀ effect ∈ effects, effect.isStoreCall = true → api.reportsFailure effect = true

/-! ## The session state machine against a merging store -/

/-- One key of a stored record after an update: the update's value when the
update mentions the key, the stored value otherwise. -/
def mergedField {α : Type} (new old : Option α) : Option α :=
  match new with
  | some v => some v
  | none => old

/-- The record a store holds after it applies `data` to `entry` as a field merge. -/
def mergeFields (entry : TimeEntry) (data : EntryData) : TimeEntry :=
  { id := entry.id,
    clock_in := data.clock_in.getD entry.clock_in,
    clock_out := mergedField data.clock_out entry.clock_out,
    break_start := mergedField data.break_start entry.break_start,
    break_end := mergedField data.break_end entry.break_end,
    status := data.status.getD entry.status,
    total_hours := mergedField data.total_hours entry.total_hours,
    category := mergedField data.category entry.category,
    notes := mergedField data.notes entry.notes }

/-- The record a store creates from `data` under the identifier `id`. -/
def createdRecord (id : String) (data : EntryData) : TimeEntry :=
  mergeFields { id := id, clock_in := 0, status := "" } data

/-- A store that holds the client's current record: it accepts a create and echoes
the created record, and applies an update of the record it holds as a field merge
and echoes the merged record. -/
def mergeStore (st : Dashboard) : API :=
  { createTimeEntry := fun data => .ok (createdRecord "rec" data),
    updateTimeEntry := fun id data =>
      match st.activeEntry with
      | some entry =>
        if entry.id = id then .ok (mergeFields entry data)
        else .fail "The requested resource wasn't found." (some 404)
      | none => .fail "The requested resource wasn't found." (some 404) }

/-- The four transitions of the session state machine. -/
inductive Transition where
  | clockIn
  | breakStart
  | breakEnd
  | clockOut
  deriving DecidableEq

/-- The handler of a transition. -/
def Transition.handler (t : Transition) : API → Dashboard → Int → Dashboard × List Effect :=
  match t with
  | .clockIn => handleClockIn
  | .breakStart => handleBreakStart
  | .breakEnd => handleBreakEnd
  | .clockOut => handleClockOut

/-- One transition taken at the instant `step.2` against the merging store. -/
def stepMerged (st : Dashboard) (step : Transition × Int) : Dashboard × List Effect :=
  step.1.handler (mergeStore st) st step.2

/-- The transition reached the store and the store accepted it. -/
def stepSucceeded (st : Dashboard) (step : Transition × Int) : Bool :=
  match storeCalls (stepMerged st step).2 with
  | [effect] => !(mergeStore st).reportsFailure effect
  | _ => false

/-- The state after a sequence of transitions against the merging store. -/
def runMerged (st : Dashboard) (steps : List (Transition × Int)) : Dashboard :=
  steps.foldl (fun s step => (stepMerged s step).1) st

/-- Every transition of the sequence, taken in turn from `st`, succeeded. -/
def allSucceeded (st : Dashboard) (steps : List (Transition × Int)) : Bool :=
  match steps with
  | [] => true
  | step :: rest => stepSucceeded st step && allSucceeded (stepMerged st step).1 rest

/-- The state Inactive: no current session. -/
def inactive : Dashboard :=
  { activeEntry := none }

/-- Clock-in at 0, a break from 1 to 2, and a second break started at 3. -/
def secondBreakSteps : List (Transition × Int) :=
  [(.clockIn, 0), (.breakStart, 1), (.breakEnd, 2), (.breakStart, 3)]

/-- The instants recorded in `entry` lie between its clock-in and `upTo`. -/
def timesWithin (entry : TimeEntry) (upTo : Int) : Prop :=
  entry.clock_in ≤ upTo
    ∧ (∀ bs, entry.break_start = some bs → entry.clock_in ≤ bs ∧ bs ≤ upTo)
    ∧ (∀ be, entry.break_end = some be → entry.clock_in ≤ be ∧ be ≤ upTo)

/-- The current session, if any, records only instants between its clock-in and
`upTo`. -/
def sessionWithin (st : Dashboard) (upTo : Int) : Prop :=
  ∀ entry, st.activeEntry = some entry → timesWithin entry upTo

/-- Clock-in at 0 and one break from 1 to 2. -/
def oneBreakSteps : List (Transition × Int) :=
  [(.clockIn, 0), (.breakStart, 1), (.breakEnd, 2)]

/-! ## timesheet.js: the period summary -/

/-- The four accumulators of `loadTimesheet` (lines 90-93 of `timesheet.js`). -/
structure PeriodSummary where
  totalHours : ℚ
  regularHours : ℚ
  overtimeHours : ℚ
  breakHours : ℚ
  deriving DecidableEq

/-- The body of the `forEach` of lines 95-109 of `timesheet.js`, for one entry, in
exact arithmetic: the values the accumulators would hold without the rounding of
the double additions (`summaryStepDouble` below has the rounding).
`if (entry.total_hours)` skips a missing and a zero value. -/
def summaryStep (acc : PeriodSummary) (entry : TimeEntry) : PeriodSummary :=
  let acc1 : PeriodSummary :=
    match entry.total_hours with
    | none => acc
    | some hours =>
      if hours = 0 then acc
      else if hours ≤ 8 then
        { acc with totalHours := acc.totalHours + hours,
                   regularHours := acc.regularHours + hours }
      else
        { acc with totalHours := acc.totalHours + hours,
                   regularHours := acc.regularHours + 8,
                   overtimeHours := acc.overtimeHours + (hours - 8) }
  match entry.break_start, entry.break_end with
  | some breakStart, some breakEnd =>
    { acc1 with breakHours :=
        acc1.breakHours + ((breakEnd - breakStart : Int) : ℚ) / (1000 * 60 * 60) }
  | _, _ => acc1

/-- Lines 88-109 and 151-158 of `timesheet.js`: the period summary of a query
result (all four values are 0 for an empty result). -/
def periodSummary (entries : List TimeEntry) : PeriodSummary :=
  entries.foldl summaryStep { totalHours := 0, regularHours := 0, overtimeHours := 0,
                              breakHours := 0 }

/-- The `total_hours` of an entry as a number, 0 when the field is missing. -/
def hoursOf (entry : TimeEntry) : ℚ :=
  entry.total_hours.getD 0

/-- A completed entry of `hours` hours. -/
def completedEntry (hours : ℚ) : TimeEntry :=
  { id := "e1", clock_in := 0, status := "completed", total_hours := some hours }

/-! ## time-off.js -/

/-- The record the submit handler passes to `API.createTimeOffRequest`
(lines 112-117 of `time-off.js`). Dates are the day numbers of the date controls'
values. -/
structure TimeOffData where
  type : String
  start_date : Int
  end_date : Int
  reason : Option String
  deriving DecidableEq

/-- What the time-off form does to the outside world, in program order. -/
inductive FormEffect where
  | announceFormError (fieldId : String) (message : String)
  | clearFormError (fieldId : String)
  | announce (message : String) (priority : String)
  | showCalculatedDays (days : Int)
  | createTimeOffRequest (data : TimeOffData)
  | call (procedure : String)
  deriving DecidableEq

/-- The epoch value of `new Date(value)` for a date-only value `YYYY-MM-DD`:
midnight UTC of the day numbered `day`. -/
def dateOnly (day : Int) : Int :=
  day * 86400000

/-- Lines 41-62 of `time-off.js`, on the epoch values of the two date controls
(`none` for an empty control). -/
def calculateDays (start finish : Option Int) : List FormEffect :=
  match start, finish with
  | some startDateObj, some endDateObj =>
    if endDateObj < startDateObj then
      [.announceFormError "end-date" "End date must be after start date",
       .showCalculatedDays 0]
    else
      let diffTime : Int := |endDateObj - startDateObj|
      let diffDays : Int := Int.ceil ((diffTime : ℚ) / (1000 * 60 * 60 * 24)) + 1
      [.clearFormError "end-date", .showCalculatedDays diffDays]
  | _, _ => []

/-- The fields the time-off submit handler reads from the form: `type` and
`reason` as `FormData.get` returns them, the two date controls as day numbers
(`none` for an empty control). -/
structure TimeOffForm where
  type : Option String
  startDate : Option Int
  endDate : Option Int
  reason : Option String
  deriving DecidableEq

/-- Lines 73-142 of `time-off.js`: the submit handler; `accepted data` is the
`success` of the gateway's result for `data`. -/
def timeOffSubmit (accepted : TimeOffData → Bool) (form : TimeOffForm) : List FormEffect :=
  match orNull form.type with
  | none => [.announceFormError "request-type" "Please select a type of time off"]
  | some type =>
    match form.startDate, form.endDate with
    | some start, some finish =>
      if dateOnly finish < dateOnly start then
        [.announceFormError "end-date" "End date must be after start date"]
      else
        let data : TimeOffData :=
          { type := type, start_date := start, end_date := finish,
            reason := orNull form.reason }
        [.clearFormError "request-type",
         .clearFormError "start-date",
         .clearFormError "end-date",
         .call "submitBtn.disabled = true",
         .announce "Submitting time off request" "polite",
         .createTimeOffRequest data]
        ++ (if accepted data then
              [.call "formMessage: submitted",
               .announce "Time off request submitted successfully" "assertive",
               .call "form.reset",
               .showCalculatedDays 0,
               .call "submitBtn.disabled = false",
               .call "loadRequestHistory"]
            else
              [.call "formMessage: failed",
               .announce "Failed to submit time off request" "assertive",
               .call "submitBtn.disabled = false"])
    | _, _ => [.announce "Please select start and end dates" "assertive"]

/-- The store requests among the form's effects. -/
def timeOffRequests (effects : List FormEffect) : List TimeOffData :=
  effects.filterMap (fun effect =>
    match effect with
    | .createTimeOffRequest data => some data
    | _ => none)

/-- The request the time-off form submits, if its three validations pass:
a non-empty type, two non-empty dates, and an end date not earlier than the start
date. -/
def validTimeOffRequest (form : TimeOffForm) : Option TimeOffData :=
  match orNull form.type, form.startDate, form.endDate with
  | some type, some start, some finish =>
    if finish < start then none
    else some { type := type, start_date := start, end_date := finish,
                reason := orNull form.reason }
  | _, _, _ => none

/-- A PTO request for 2024-01-01 to 2024-01-03 without a reason. -/
def ptoForm : TimeOffForm :=
  { type := some "pto", startDate := some 19723, endDate := some 19725, reason := some "" }

/-! ## pocketbase-client.js: the gateway -/

/-- The error a rejected SDK call throws, as far as the gateway reads it: its
`message` and its `status`, either of which may be absent. -/
structure ClientError where
  message : Option String
  status : Option Int
  deriving DecidableEq

/-- How an awaited call of the SDK settles. -/
inductive Outcome (α : Type) where
  | resolved (value : α)
  | rejected (error : ClientError)
  deriving DecidableEq

/-- The result object of a gateway operation; a key that the object literal does
not have, or whose value is `undefined` or `null`, is `none`. -/
structure GatewayResult (α : Type) where
  success : Bool
  data : Option α := none
  error : Option String := none
  status : Option Int := none
  deriving DecidableEq

/-- The error thrown by `pb.authStore.model.id` when there is no auth model. -/
def noModelError : ClientError :=
  { message := some "Cannot read properties of null (reading 'id')", status := none }

/-- An SDK call whose argument mentions `pb.authStore.model.id`: with no auth model
the evaluation of the argument throws inside the `try`. -/
def withModelId {α : Type} (authModelId : Option String) (call : String → Outcome α) :
    Outcome α :=
  match authModelId with
  | some id => call id
  | none => .rejected noModelError

/-- The four message texts of a classifying `catch` block. -/
structure FailureMessages where
  fallback : String
  network : String
  forbidden : String
  notFound : String
  deriving DecidableEq

/-- A classifying `catch` block (lines 137-150, 172-186, 198-211, 226-239 and
280-294 of `pocketbase-client.js`): `errorMessage = error.message || fallback`,
replaced by a fixed text when `error.status === 0 || !error.status`, when it is
403 and when it is 404; the result carries that message and `error.status`. -/
def classifiedFailure {α : Type} (messages : FailureMessages) (error : ClientError) :
    GatewayResult α :=
  let errorMessage : String :=
    match error.message with
    | some m => if m = "" then messages.fallback else m
    | none => messages.fallback
  let errorMessage : String :=
    if error.status = some 0 ∨ error.status = none then messages.network
    else if error.status = some 403 then messages.forbidden
    else if error.status = some 404 then messages.notFound
    else errorMessage
  { success := false, error := some errorMessage, status := error.status }

/-- A plain `catch` block (lines 71-74, 107-110, 158-161, 252-255 and 266-269):
`return { success: false, error: error.message }`. -/
def plainFailure {α : Type} (error : ClientError) : GatewayResult α :=
  { success := false, error := error.message }

/-- The arguments of a `getFullList` call. -/
structure ListQuery where
  collection : String
  filter : String
  sort : Option String := none
  deriving DecidableEq

namespace Gateway

/-- Lines 66-75: `API.login`. -/
def login {α : Type} (authWithPassword : String → String → Outcome α)
    (email password : String) : GatewayResult α :=
  match authWithPassword email password with
  | .resolved authData => { success := true, data := some authData }
  | .rejected error => plainFailure error

/-- The record `API.register` creates in `users`. -/
structure UserData where
  email : String
  password : String
  passwordConfirm : String
  name : String
  emailVisibility : Bool
  deriving DecidableEq

/-- A `users` record. -/
structure User where
  id : String
  email : String
  name : String
  deriving DecidableEq

/-- The record `API.register` creates in `user_profiles`. -/
structure ProfileData where
  user : String
  pto_balance : Int
  sick_balance : Int
  role : String
  overtime_threshold : Int
  deriving DecidableEq

/-- Lines 77-111: `API.register`. The second component lists the profile records
whose creation was attempted. -/
def register (createUser : UserData → Outcome User)
    (createProfile : ProfileData → Outcome Unit)
    (email password passwordConfirm name : String) : GatewayResult User × List ProfileData :=
  let userData : UserData :=
    { email := email, password := password, passwordConfirm := passwordConfirm,
      name := name, emailVisibility := true }
  match createUser userData with
  | .resolved user =>
    let profile : ProfileData :=
      { user := user.id, pto_balance := 15, sick_balance := 10, role := "employee",
        overtime_threshold := 8 }
    match createProfile profile with
    | .resolved _ => ({ success := true, data := some user }, [profile])
    | .rejected _ => ({ success := true, data := some user }, [profile])
  | .rejected error => (plainFailure error, [])

/-- The texts of lines 139-147. -/
def createTimeEntryMessages : FailureMessages :=
  { fallback := "Failed to create time entry",
    network := "Network error: Unable to connect to server",
    forbidden :=
      "Cannot create time entry: Collection not configured. See POCKETBASE_SETUP.md",
    notFound :=
      "Collection not found: time_entries must be created. See POCKETBASE_SETUP.md" }

/-- Lines 129-151: `API.createTimeEntry`; `create user data` is the creation of the
record `{ user, ...data }`. -/
def createTimeEntry (authModelId : Option String)
    (create : String → EntryData → Outcome TimeEntry) (data : EntryData) :
    GatewayResult TimeEntry :=
  match withModelId authModelId (fun user => create user data) with
  | .resolved entry => { success := true, data := some entry }
  | .rejected error => classifiedFailure createTimeEntryMessages error

/-- Lines 153-162: `API.updateTimeEntry`. -/
def updateTimeEntry (update : String → EntryData → Outcome TimeEntry) (id : String)
    (data : EntryData) : GatewayResult TimeEntry :=
  match update id data with
  | .resolved entry => { success := true, data := some entry }
  | .rejected error => plainFailure error

/-- The texts of lines 174-183. -/
def getTimeEntriesMessages : FailureMessages :=
  { fallback := "Failed to fetch time entries",
    network :=
      "Network error: Unable to connect to server. Please check your internet connection.",
    forbidden := "Access denied: Collection not configured. See POCKETBASE_SETUP.md",
    notFound :=
      "Collection not found: time_entries collection does not exist. See POCKETBASE_SETUP.md" }

/-- Lines 164-187: `API.getTimeEntries`; `filter` is `none` when the argument is
omitted (the default `''`). -/
def getTimeEntries (authModelId : Option String)
    (getFullList : ListQuery → Outcome (List TimeEntry)) (filter : Option String) :
    GatewayResult (List TimeEntry) :=
  match withModelId authModelId (fun user =>
      getFullList
        { collection := "time_entries",
          filter := "user=\"" ++ user ++ "\" " ++ filter.getD "",
          sort := some "-created" }) with
  | .resolved entries => { success := true, data := some entries }
  | .rejected error => classifiedFailure getTimeEntriesMessages error

/-- The texts of lines 200-208. -/
def getActiveTimeEntryMessages : FailureMessages :=
  { fallback := "Failed to fetch active time entry",
    network := "Network error: Unable to connect to server",
    forbidden := "Collection access denied - setup required",
    notFound := "time_entries collection not found" }

/-- Lines 189-212: `API.getActiveTimeEntry`; the data is `entries[0] || null`. -/
def getActiveTimeEntry (authModelId : Option String)
    (getFullList : ListQuery → Outcome (List TimeEntry)) : GatewayResult TimeEntry :=
  match withModelId authModelId (fun user =>
      getFullList
        { collection := "time_entries",
          filter := "user=\"" ++ user ++ "\" && (status=\"active\" || status=\"on_break\")",
          sort := some "-created" }) with
  | .resolved entries => { success := true, data := entries.head? }
  | .rejected error => classifiedFailure getActiveTimeEntryMessages error

/-- The record `API.createEditRequest` creates in `edit_requests`. -/
structure EditRequestData where
  user : String
  time_entry : String
  reason : String
  requested_changes : EntryData
  status : String
  deriving DecidableEq

/-- The texts of lines 228-236. -/
def createEditRequestMessages : FailureMessages :=
  { fallback := "Failed to submit edit request",
    network := "Network error: Unable to reach PocketBase server",
    forbidden :=
      "Access denied: edit_requests collection is not configured for users. See POCKETBASE_SETUP.md",
    notFound :=
      "Collection not found: edit_requests collection must be created. See POCKETBASE_SETUP.md" }

/-- Lines 215-240: `API.createEditRequest`. -/
def createEditRequest {α : Type} (authModelId : Option String)
    (create : EditRequestData → Outcome α) (timeEntryId reason : String)
    (requestedChanges : EntryData) : GatewayResult α :=
  match withModelId authModelId (fun user =>
      create { user := user, time_entry := timeEntryId, reason := reason,
               requested_changes := requestedChanges, status := "pending" }) with
  | .resolved request => { success := true, data := some request }
  | .rejected error => classifiedFailure createEditRequestMessages error

/-- Lines 243-256: `API.createTimeOffRequest`; `create user data status` is the
creation of the record `{ user, ...data, status }`. -/
def createTimeOffRequest {α : Type} (authModelId : Option String)
    (create : String → TimeOffData → String → Outcome α) (data : TimeOffData) :
    GatewayResult α :=
  match withModelId authModelId (fun user => create user data "pending") with
  | .resolved request => { success := true, data := some request }
  | .rejected error => plainFailure error

/-- Lines 258-270: `API.getTimeOffRequests`. -/
def getTimeOffRequests {α : Type} (authModelId : Option String)
    (getFullList : ListQuery → Outcome (List α)) : GatewayResult (List α) :=
  match withModelId authModelId (fun user =>
      getFullList
        { collection := "time_off_requests",
          filter := "user=\"" ++ user ++ "\"",
          sort := some "-created" }) with
  | .resolved requests => { success := true, data := some requests }
  | .rejected error => plainFailure error

/-- The texts of lines 282-291. -/
def getUserProfileMessages : FailureMessages :=
  { fallback := "Failed to fetch user profile",
    network := "Network error: Unable to connect to server",
    forbidden := "Collection access denied - setup required",
    notFound := "user_profiles collection not found" }

/-- Lines 273-295: `API.getUserProfile`; the data is `profiles[0] || null`. -/
def getUserProfile {α : Type} (authModelId : Option String)
    (getFullList : ListQuery → Outcome (List α)) : GatewayResult α :=
  match withModelId authModelId (fun user =>
      getFullList
        { collection := "user_profiles", filter := "user=\"" ++ user ++ "\"" }) with
  | .resolved profiles => { success := true, data := profiles.head? }
  | .rejected error => classifiedFailure getUserProfileMessages error

end Gateway

/-- The four failure categories of the gateway's result model. -/
inductive StatusCategory where
  | network
  | forbidden
  | notFound
  | other
  deriving DecidableEq

/-- The category of a thrown error by its status: network when the status is 0 or
absent, forbidden when it is 403, notFound when it is 404, other for any remaining
status. -/
def statusCategory (status : Option Int) : StatusCategory :=
  match status with
  | none => .network
  | some code =>
    if code = 0 then .network
    else if code = 403 then .forbidden
    else if code = 404 then .notFound
    else .other

/-- The message of a failure by its category: the operation's fixed text for
network, forbidden and notFound, and for other the underlying error message, or the
operation's default text when that message is empty or absent. -/
def categoryMessage (messages : FailureMessages) (error : ClientError) : String :=
  match statusCategory error.status with
  | .network => messages.network
  | .forbidden => messages.forbidden
  | .notFound => messages.notFound
  | .other =>
    match error.message with
    | none => messages.fallback
    | some m => if m = "" then messages.fallback else m

/-- A store that answers the one query `expected` with `entries` and rejects every
other query as malformed. -/
def answerOnly (expected : ListQuery) (entries : List TimeEntry) :
    ListQuery → Outcome (List TimeEntry) :=
  fun query =>
    if query = expected then .resolved entries
    else .rejected { message := some "Something went wrong.", status := some 400 }

/-- A network failure as the SDK throws it: status 0. -/
def networkError : ClientError :=
  { message := some "Failed to fetch", status := some 0 }

/-- A policy denial as the SDK throws it: status 403. -/
def forbiddenError : ClientError :=
  { message := some "Failed to fetch", status := some 403 }

/-- The effect is an accessibility announcement. -/
def Effect.isAnnouncement : Effect → Bool
  | .announce _ _ => true
  | .announceClockedOut _ => true
  | .announceFormError _ _ => true
  | .addOvertimeNotification _ => true
  | _ => false

/-- The effect shows the user a message. -/
def Effect.isVisibleMessage : Effect → Bool
  | .alert _ => true
  | .addOvertimeNotification _ => true
  | _ => false

/-- The effects include both a user-visible message and an accessibility
announcement. -/
def reported (effects : List Effect) : Bool :=
  effects.any Effect.isVisibleMessage && effects.any Effect.isAnnouncement

/-! ## dashboard.js: the periodic monitor and the timer -/

/-- A call `addNotification(message, type)`: the notification is inserted in the
list and announced. -/
structure Notification where
  message : String
  type : String
  deriving DecidableEq

/-- The notification of line 411 of `dashboard.js`. -/
def missedClockOutNotification : Notification :=
  { message := "You have been clocked in for over 12 hours. Did you forget to clock out?",
    type := "warning" }

/-- Lines 404-414 of `dashboard.js`, at the clock reading `now`. -/
def checkMissedClockOut (st : Dashboard) (now : Int) : List Notification :=
  match st.activeEntry with
  | none => []
  | some entry =>
    if entry.status = "active" then
      let hoursSinceClockIn : ℚ := ((now - entry.clock_in : Int) : ℚ) / (1000 * 60 * 60)
      if hoursSinceClockIn > 12 then [missedClockOutNotification] else []
    else []

/-- Line 40 of `dashboard.js`, `setInterval(checkMissedClockOut, 60000)`: the
notifications of `count` successive checks, the first at `first`, one minute apart,
while the state stays `st`. -/
def periodicChecks (st : Dashboard) (first : Int) (count : Nat) : List (List Notification) :=
  (List.range count).map (fun (k : Nat) => checkMissedClockOut st (first + (k : Int) * 60000))

/-- The three numbers of the timer display. -/
structure TimerDisplay where
  hours : Int
  minutes : Int
  seconds : Int
  deriving DecidableEq

/-- Lines 280-282 of `dashboard.js`: `Math.floor(workTime / 3600000)`,
`Math.floor((workTime % 3600000) / 60000)`, `Math.floor((workTime % 60000) / 1000)`;
`%` is the remainder of the truncated division. -/
def timerDisplay (workTime : Int) : TimerDisplay :=
  { hours := workTime / 3600000,
    minutes := (Int.tmod workTime 3600000) / 60000,
    seconds := (Int.tmod workTime 60000) / 1000 }

/-- Lines 262-279 of `dashboard.js`: the `workTime` of a timer tick at the clock
reading `now`, `none` when the tick does not update the display. The numeric
`breakEnd` is tested for truthiness (`if (breakEnd)`). -/
def timerWorkTime (st : Dashboard) (now : Int) : Option Int :=
  match st.activeEntry with
  | none => none
  | some entry =>
    if entry.status = "active" then
      let elapsed := now - entry.clock_in
      let breakTime : Int :=
        match entry.break_start with
        | none => 0
        | some breakStart =>
          match entry.break_end with
          | none => 0
          | some breakEnd => if breakEnd ≠ 0 then breakEnd - breakStart else 0
      some (elapsed - breakTime)
    else none

/-- The display a timer tick writes, if it writes one. -/
def timerTick (st : Dashboard) (now : Int) : Option TimerDisplay :=
  (timerWorkTime st now).map timerDisplay

/-- Clock-in at 0:00, a break from 1:00 to 2:00 and a second break from 3:00 to
4:00 (milliseconds since the clock-in). -/
def twoBreakSteps : List (Transition × Int) :=
  [(.clockIn, 0), (.breakStart, 3600000), (.breakEnd, 7200000),
   (.breakStart, 10800000), (.breakEnd, 14400000)]

/-! ## manual-entry.js: the live calculation -/

/-- Lines 37-47 of `manual-entry.js`: `diffHours - breakHours`, the value before
the clamp. The two instants are on 2000-01-01 (day 10957). -/
def liveRawHours (start finish : WallTime) (breakParsed : Option Int) : ℚ :=
  let startDate := localDateTime 10957 start
  let endDate := localDateTime 10957 finish
  let endDate := if endDate < startDate then setDatePlusOne endDate else endDate
  let diffMs := endDate - startDate
  let diffHours : ℚ := (diffMs : ℚ) / (1000 * 60 * 60)
  let breakHours : ℚ := (breakMinutes breakParsed : ℚ) / 60
  diffHours - breakHours

/-- Lines 30-59 of `manual-entry.js`: the hours shown in `calculated-hours` and
the accessibility call of the validation; `none` when a time control is empty. -/
def calculateHours (start finish : Option WallTime) (breakParsed : Option Int) :
    Option (ℚ × List Effect) :=
  match start, finish with
  | some start, some finish =>
    let totalHours : ℚ := max 0 (liveRawHours start finish breakParsed)
    some (totalHours,
      if totalHours < 0 then
        [.announceFormError "end-time" "End time must be after start time"]
      else [.clearFormError "end-time"])
  | _, _ => none

/-! ## timesheet.js: the edit-request cell -/

/-- The last cell of a timesheet row (lines 138-145 of `timesheet.js`): the button
whose click calls `requestEdit(entryId)`, or the text `--`. -/
inductive EditCell where
  | editRequestButton (entryId : String)
  | dashes
  deriving DecidableEq

/-- Lines 139-144 of `timesheet.js`. -/
def editCell (entry : TimeEntry) : EditCell :=
  if entry.status = "completed" then .editRequestButton entry.id else .dashes

/-- The threshold as C25 words it: the profile's `overtime_threshold`, and 8 when no
profile is loaded or the profile has no threshold. -/
def statedThreshold (userProfile : Option UserProfile) : ℚ :=
  match userProfile with
  | none => 8
  | some p => p.overtime_threshold.getD 8

/-- A profile whose `overtime_threshold` is 0. -/
def zeroThresholdProfile : UserProfile :=
  { pto_balance := 15, overtime_threshold := some 0 }

/-! ## accessibility.js: the focus announcement -/

/-- The characters `String.prototype.trim` strips: the ECMAScript white space
(tab, vertical tab, form feed, space, no-break space, the byte order mark and the
space separators of Unicode) and line terminators (line feed, carriage return,
U+2028, U+2029). -/
def isJsWhiteSpace (c : Char) : Bool :=
  let n := c.toNat
  n = 9 || n = 10 || n = 11 || n = 12 || n = 13 || n = 32 || n = 160 || n = 5760
    || (8192 ≤ n && n ≤ 8202) || n = 8232 || n = 8233 || n = 8239 || n = 8287
    || n = 12288 || n = 65279

/-- `String.prototype.trim`: the string without its leading and trailing white
space. -/
def jsTrim (s : String) : String :=
  String.mk
    ((((s.data.dropWhile isJsWhiteSpace).reverse).dropWhile isJsWhiteSpace).reverse)

/-- The truthiness of an attribute value: present and not the empty string. -/
def truthy (value : Option String) : Bool :=
  match value with
  | some s => s ≠ ""
  | none => false

/-- What `announceFocusedElement` reads of the focused element and of the
document. `tagName` is `element.tagName.toLowerCase()`; an attribute that is not set
is `none`; `labelledByText` is the text content of the element whose id is the
`aria-labelledby` value (`none` when there is no such element); `label` is the
result of `getElementLabel`; `selectedOptionText` is the text of
`options[selectedIndex]`. -/
structure FocusedElement where
  tagName : String
  role : Option String := none
  ariaLabel : Option String := none
  ariaLabelledBy : Option String := none
  labelledByText : Option String := none
  label : String := ""
  type : Option String := none
  value : String := ""
  placeholder : Option String := none
  textContent : String := ""
  title : String := ""
  checked : Bool := false
  selectedOptionText : Option String := none
  required : Bool := false
  ariaRequired : Option String := none
  disabled : Bool := false
  ariaDisabled : Option String := none
  ariaExpanded : Option String := none
  ariaSelected : Option String := none
  deriving DecidableEq

/-- Lines 292-305 of `accessibility.js`: the name the announcement starts with. -/
def accessibleName (el : FocusedElement) : String :=
  if truthy el.ariaLabel then el.ariaLabel.getD ""
  else if truthy el.ariaLabelledBy then
    match el.labelledByText with
    | some text => jsTrim text
    | none => ""
  else if el.label ≠ "" then el.label
  else if el.textContent ≠ "" ∧ jsTrim el.textContent ≠ "" then jsTrim el.textContent
  else if el.title ≠ "" then el.title
  else ""

/-- The number `value.split(newline).length` of line 340. -/
def lineCount (value : String) : Nat :=
  (value.data.filter (fun c => c = Char.ofNat 10)).length + 1

/-- Lines 308-349 of `accessibility.js`: what is appended for the kind of the
element. A `type` attribute that is not set prints as `null`. -/
def kindSuffix (el : FocusedElement) : String :=
  let role := el.role.getD ""
  let typeText := el.type.getD "null"
  if el.tagName = "button" ∨ role = "button" then ", button"
  else if el.tagName = "a" ∨ role = "link" then ", link"
  else if el.tagName = "input" then
    if el.type = some "checkbox" then
      ", checkbox, " ++ (if el.checked then "checked" else "not checked")
    else if el.type = some "radio" then
      ", radio button, " ++ (if el.checked then "selected" else "not selected")
    else if el.type = some "text" ∨ el.type = some "email" ∨ el.type = some "password" then
      ", " ++ typeText ++ " input" ++
        (if el.value ≠ "" then
          ", current value: " ++ (if el.type = some "password" then "hidden" else el.value)
         else if truthy el.placeholder then ", " ++ el.placeholder.getD ""
         else "")
    else if el.type = some "submit" then ", submit button"
    else ", " ++ typeText ++ " input"
  else if el.tagName = "select" then
    ", dropdown" ++
      (match el.selectedOptionText with
        | some text => ", selected: " ++ text
        | none => "")
  else if el.tagName = "textarea" then
    ", text area" ++
      (if el.value ≠ "" then ", " ++ toString (lineCount el.value) ++ " lines" else "")
  else if el.tagName = "h1" ∨ el.tagName = "h2" ∨ el.tagName = "h3" ∨ el.tagName = "h4"
      ∨ el.tagName = "h5" ∨ el.tagName = "h6" then
    ", heading level " ++ (el.tagName.drop 1).take 1
  else if role = "tab" then
    ", tab" ++ (if el.ariaSelected = some "true" then ", selected" else "")
  else if role = "menuitem" then ", menu item"
  else ""

/-- Lines 352-367 of `accessibility.js`: the required, disabled and expanded
indicators. -/
def stateSuffix (el : FocusedElement) : String :=
  (if el.required ∨ el.ariaRequired = some "true" then ", required" else "")
    ++ (if el.disabled ∨ el.ariaDisabled = some "true" then ", disabled" else "")
    ++ (if el.ariaExpanded = some "true" then ", expanded"
        else if el.ariaExpanded = some "false" then ", collapsed"
        else "")

/-- Lines 281-367 of `accessibility.js`: the announcement text before the final
trim. -/
def focusAnnouncement (el : FocusedElement) : String :=
  accessibleName el ++ kindSuffix el ++ stateSuffix el

/-- Lines 271-373 of `accessibility.js`: the message `announceFocusedElement`
passes to `announce(..., 'polite')`, `none` when it announces nothing.
`screenReader` is `this.settings.screenReader`. -/
def announceFocusedElement (screenReader : Bool) (el : FocusedElement) : Option String :=
  if screenReader = false then none
  else if el.tagName = "" then none
  else if jsTrim (focusAnnouncement el) ≠ "" then some (jsTrim (focusAnnouncement el))
  else none

/-- A required password field labelled `Password` that holds `value`. -/
def passwordField (value : String) : FocusedElement :=
  { tagName := "input", label := "Password", type := some "password", value := value,
    placeholder := some "Enter your password", required := true }

/-! ## manual-entry.js on the host's local time and on raw field values -/

/-- The host's time zone, as `Date` uses it: the UTC offset in milliseconds in force
at a local reading (`localDateTime`) and the one in force at an instant. -/
structure HostZone where
  offsetAtLocal : Int → Int
  offsetAtEpoch : Int → Int

/-- The epoch value of `new Date(date + "T" + time + ":00")`: the local date-time
read in the host's zone. -/
def HostZone.parse (zone : HostZone) (date : Int) (time : WallTime) : Int :=
  localDateTime date time - zone.offsetAtLocal (localDateTime date time)

/-- The epoch value after `d.setDate(d.getDate() + 1)`: the local reading of `d`,
moved to the same wall-clock time on the next calendar day and read in the host's
zone again. -/
def HostZone.setDatePlusOne (zone : HostZone) (d : Int) : Int :=
  let reading := d + zone.offsetAtEpoch d
  (reading + 86400000) - zone.offsetAtLocal (reading + 86400000)

/-- A zone whose offset is always `offset`. -/
def fixedZone (offset : Int) : HostZone :=
  { offsetAtLocal := fun _ => offset,
    offsetAtEpoch := fun _ => offset }

/-- America/New_York around the change of 2024-03-10 (day 19792): UTC-5 before
02:00 local time, which is 07:00 UTC, and UTC-4 from then on. -/
def newYork2024 : HostZone :=
  { offsetAtLocal := fun reading =>
      if reading < localDateTime 19792 ⟨2, 0⟩ then -18000000 else -14400000,
    offsetAtEpoch := fun instant =>
      if instant < localDateTime 19792 ⟨7, 0⟩ then -18000000 else -14400000 }

/-- The fields of the manual-entry form as `FormData.get` returns them to the submit
handler: the date and the two times are `none` when the value is empty or is not a
date or a time, `breakDuration` is the value of `parseInt` (`none` for `NaN`). -/
structure RawManualEntryForm where
  date : Option Int
  startTime : Option WallTime
  endTime : Option WallTime
  breakDuration : Option Int
  category : Option String
  notes : Option String
  deriving DecidableEq

/-- A well-formed form, as raw field values. -/
def ManualEntryForm.toRaw (form : ManualEntryForm) : RawManualEntryForm :=
  { date := some form.date, startTime := some form.startTime,
    endTime := some form.endTime, breakDuration := form.breakDuration,
    category := form.category, notes := form.notes }

/-- The epoch value of `new Date(date + "T" + time + ":00")` for raw field values,
`none` for an invalid date. -/
def parseDateTime (zone : HostZone) (date : Option Int) (time : Option WallTime) :
    Option Int :=
  match date, time with
  | some d, some t => some (zone.parse d t)
  | _, _ => none

/-- Lines 82-92 of `manual-entry.js`: `totalHours`, `none` for `NaN`. With an invalid
date the comparison `endDate < startDate` is false and the difference is `NaN`. -/
def rawSubmitTotalHours (zone : HostZone) (form : RawManualEntryForm) : Option ℚ :=
  match parseDateTime zone form.date form.startTime,
      parseDateTime zone form.date form.endTime with
  | some startDate, some endDate =>
    let endDate := if endDate < startDate then zone.setDatePlusOne endDate else endDate
    let diffMs := endDate - startDate
    let diffHours : ℚ := (diffMs : ℚ) / (1000 * 60 * 60)
    let breakHours : ℚ := (breakMinutes form.breakDuration : ℚ) / 60
    some (diffHours - breakHours)
  | _, _ => none

/-- The record of lines 111-118 of `manual-entry.js`. `clock_in` and `clock_out` are
the instants that the submitted strings denote to `new Date` (`none` for a string
that is not a date-time); `total_hours` is `none` for `NaN`. -/
structure ManualEntryRecord where
  clock_in : Option Int
  clock_out : Option Int
  status : String
  total_hours : Option ℚ
  category : Option String
  notes : Option String
  deriving DecidableEq

/-- What the manual-entry submit handler does to the outside world. -/
inductive SubmitEffect where
  | announceFormError (fieldId : String) (message : String)
  | clearFormError (fieldId : String)
  | announce (message : String) (priority : String)
  | createTimeEntry (record : ManualEntryRecord)
  | call (procedure : String)
  deriving DecidableEq

/-- Lines 77-79 and 111-118 of `manual-entry.js`: the record passed to
`API.createTimeEntry`. -/
def rawSubmitRecord (zone : HostZone) (form : RawManualEntryForm) : ManualEntryRecord :=
  { clock_in := parseDateTime zone form.date form.startTime,
    clock_out := parseDateTime zone form.date form.endTime,
    status := "pending_approval",
    total_hours := rawSubmitTotalHours zone form,
    category := orNull form.category,
    notes := orNull form.notes }

/-- Line 95 of `manual-entry.js`: `totalHours <= 0`, false for `NaN`. -/
def notPositive (totalHours : Option ℚ) : Bool :=
  match totalHours with
  | some hours => hours ≤ 0
  | none => false

/-- Lines 66-141 of `manual-entry.js`: the submit handler on the raw field values;
`accepted record` is the `success` of the gateway's result for `record`. -/
def rawSubmitHandler (zone : HostZone) (accepted : ManualEntryRecord → Bool)
    (form : RawManualEntryForm) : List SubmitEffect :=
  if notPositive (rawSubmitTotalHours zone form) then
    [.announceFormError "end-time" "End time must be after start time"]
  else
    [.clearFormError "entry-date",
     .clearFormError "start-time",
     .clearFormError "end-time",
     .call "submitBtn.disabled = true",
     .announce "Submitting time entry" "polite",
     .createTimeEntry (rawSubmitRecord zone form)]
    ++ (if accepted (rawSubmitRecord zone form) then
          [.call "formMessage: submitted",
           .announce "Time entry submitted successfully" "assertive",
           .call "form.reset",
           .call "submitBtn.disabled = false"]
        else
          [.call "formMessage: failed",
           .announce "Failed to submit time entry" "assertive",
           .call "submitBtn.disabled = false"])

/-- The records the handler sent to the store. -/
def submittedRecords (effects : List SubmitEffect) : List ManualEntryRecord :=
  effects.filterMap (fun effect =>
    match effect with
    | .createTimeEntry record => some record
    | _ => none)

/-- The manual entry of 2024-03-09 (day 19791) for 22:00 to 06:00, no break. -/
def springForwardForm : RawManualEntryForm :=
  { date := some 19791, startTime := some ⟨22, 0⟩, endTime := some ⟨6, 0⟩,
    breakDuration := none, category := some "", notes := some "" }

/-- The manual entry of 2024-01-01 (day 19723) with the start time left empty and
the end time 17:00. -/
def missingStartForm : RawManualEntryForm :=
  { date := some 19723, startTime := none, endTime := some ⟨17, 0⟩,
    breakDuration := none, category := some "", notes := some "" }

/-! ## timesheet.js: the accumulators as IEEE-754 doubles -/

/-- The number of low bits to drop from `a` for fewer than 54 bits to remain
(`fuel` bounds the search; `a` itself is always enough). -/
def excessBits : Nat → Nat → Nat
  | 0, _ => 0
  | fuel + 1, a => if a < 2 ^ 53 then 0 else excessBits fuel (a / 2) + 1

/-- A finite double that is a whole number of units of `2^-128` (every double of
magnitude at least `2^-75`, and 0) is that whole number. `roundDouble n` is the
double nearest to the exact value `n`, ties to the even significand: the rounding
of every IEEE-754 addition and subtraction (overflow to infinity, far above any
number of hours, is left out). -/
def roundDouble (n : Int) : Int :=
  let a := n.natAbs
  let shift := excessBits a a
  let q := a / 2 ^ shift
  let r := a % 2 ^ shift
  let half := 2 ^ (shift - 1)
  let q := if half < r ∨ (r = half ∧ q % 2 = 1) then q + 1 else q
  n.sign * ((q * 2 ^ shift : Nat) : Int)

/-- The value `m * 2^(e - 128)`, in units of `2^-128`. -/
def scaled (m : Int) (e : Nat) : Int :=
  m * ((2 ^ e : Nat) : Int)

/-- The JavaScript `a + b` on doubles. -/
def addDouble (a b : Int) : Int :=
  roundDouble (a + b)

/-- The JavaScript `a - b` on doubles. -/
def subDouble (a b : Int) : Int :=
  roundDouble (a - b)

/-- The double 8. -/
def eightHours : Int :=
  scaled 1 131

/-- The accumulators `totalHours`, `regularHours` and `overtimeHours` of
`loadTimesheet` as doubles. -/
structure DoubleSummary where
  totalHours : Int
  regularHours : Int
  overtimeHours : Int
  deriving DecidableEq

/-- Lines 96-104 of `timesheet.js` on doubles: the part of the `forEach` body that
reads `entry.total_hours` (`none` for a missing, null or `NaN` value, which like 0
is falsy and skipped). -/
def summaryStepDouble (acc : DoubleSummary) (hours : Option Int) : DoubleSummary :=
  match hours with
  | none => acc
  | some h =>
    if h = 0 then acc
    else if h ≤ eightHours then
      { totalHours := addDouble acc.totalHours h,
        regularHours := addDouble acc.regularHours h,
        overtimeHours := acc.overtimeHours }
    else
      { totalHours := addDouble acc.totalHours h,
        regularHours := addDouble acc.regularHours eightHours,
        overtimeHours := addDouble acc.overtimeHours (subDouble h eightHours) }

/-- Lines 90-104 of `timesheet.js` on doubles: the three accumulators after the
`forEach` over the entries' `total_hours`. -/
def periodSummaryDouble (hours : List (Option Int)) : DoubleSummary :=
  hours.foldl summaryStepDouble { totalHours := 0, regularHours := 0, overtimeHours := 0 }

/-- The double 2.2, `0x1.199999999999ap+1`. -/
def double2_2 : Int :=
  scaled 4953959590107546 77

/-- The double 8.1, `0x1.0333333333333p+3`. -/
def double8_1 : Int :=
  scaled 4559894622712627 79

/-- The accumulators are whole multiples of the step, bounded by `bound`, and split
the total exactly. -/
def exactSplit (j : Nat) (acc : DoubleSummary) (bound : Int) : Prop :=
  ((2 ^ j : Nat) : Int) ∣ acc.totalHours ∧ ((2 ^ j : Nat) : Int) ∣ acc.regularHours
    ∧ ((2 ^ j : Nat) : Int) ∣ acc.overtimeHours
    ∧ |acc.totalHours| ≤ bound ∧ |acc.regularHours| ≤ bound ∧ |acc.overtimeHours| ≤ bound
    ∧ acc.regularHours + acc.overtimeHours = acc.totalHours

/-- The magnitudes of the entries' hours, a missing value counting as 0. -/
def magnitudes (hours : List (Option Int)) : List Int :=
  hours.map (fun h => |h.getD 0|)

/-- The double 9.5. -/
def double9_5 : Int :=
  scaled 19 127

/-- The double 6. -/
def double6 : Int :=
  scaled 3 129

theorem clockOutTotalMs_eq (entry : TimeEntry) (now : Int) :
    clockOutTotalMs entry now = (now - entry.clock_in) - recordedBreakMs entry := by
  unfold clockOutTotalMs recordedBreakMs
  cases entry.break_start <;> cases entry.break_end <;> simp

/-- The store writes of `handleClockOut` from a state with a current session are
the one update, whatever the store answers. -/
theorem storeCalls_handleClockOut (api : API) (entry : TimeEntry)
    (profile : Option UserProfile) (now : Int) :
    storeCalls (handleClockOut api { activeEntry := some entry, userProfile := profile } now).2 =
      [Effect.updateTimeEntry entry.id
        { clock_out := some now, status := some "completed",
          total_hours := some (clockOutTotalHours entry now) }] := by
  unfold handleClockOut
  dsimp only
  cases api.updateTimeEntry entry.id _ with
  | ok d =>
    dsimp only
    split <;> simp [storeCalls, Effect.isStoreCall]
  | fail e c => simp [storeCalls, Effect.isStoreCall]

theorem clockOutTotalHours_eq (entry : TimeEntry) (now : Int) :
    clockOutTotalHours entry now =
      (((now - entry.clock_in) - recordedBreakMs entry : Int) : ℚ) / 3600000 := by
  unfold clockOutTotalHours
  rw [clockOutTotalMs_eq]
  norm_num

/-! ## Claims -/

/-- C1: for every current session `entry` (clock-in instant `entry.clock_in`, optional
recorded break instants) and every clock-out instant `now`, the only store write of
`handleClockOut` is an update of that entry with `clock_out = now`,
`status = 'completed'` and `total_hours = ((now - clock_in) - B) / 3,600,000`, where
`B = break_end - break_start` when both are recorded and `0` otherwise (an open break
is not subtracted); clock-in 09:00, clock-out 17:00 and break 12:00-12:30 give 7.5. -/
theorem C1_clock_out_update (api : API) (entry : TimeEntry) (profile : Option UserProfile)
    (now : Int) :
    storeCalls (handleClockOut api { activeEntry := some entry, userProfile := profile } now).2 =
        [Effect.updateTimeEntry entry.id
          { clock_out := some now, status := some "completed",
            total_hours :=
              some ((((now - entry.clock_in) - recordedBreakMs entry : Int) : ℚ) / 3600000) }]
      ∧ recordedBreakMs entry =
          (match entry.break_start, entry.break_end with
            | some bs, some be => be - bs
            | some _, none => 0
            | none, _ => 0)
      ∧ clockOutTotalHours
          (sessionEntry "active" (localDateTime 19723 ⟨9, 0⟩)
            (some (localDateTime 19723 ⟨12, 0⟩)) (some (localDateTime 19723 ⟨12, 30⟩)))
          (localDateTime 19723 ⟨17, 0⟩) = 7.5 := by
  refine ⟨?_, ?_, ?_⟩
  · rw [storeCalls_handleClockOut, clockOutTotalHours_eq]
  · unfold recordedBreakMs
    cases entry.break_start <;> cases entry.break_end <;> rfl
  · have hms : clockOutTotalMs
          (sessionEntry "active" (localDateTime 19723 ⟨9, 0⟩)
            (some (localDateTime 19723 ⟨12, 0⟩)) (some (localDateTime 19723 ⟨12, 30⟩)))
          (localDateTime 19723 ⟨17, 0⟩) = 27000000 := by decide
    rw [clockOutTotalHours, hms]
    norm_num

theorem submitEndDate_eq (form : ManualEntryForm) :
    submitEndDate form =
      if form.endTime.minuteOfDay < form.startTime.minuteOfDay
      then localDateTime (form.date + 1) form.endTime
      else localDateTime form.date form.endTime := by
  unfold submitEndDate setDatePlusOne localDateTime WallTime.minuteOfDay
  dsimp only
  split_ifs with h1 h2 h2
  · ring
  · omega
  · omega
  · rfl

theorem submitTotalHours_overnightForm : submitTotalHours overnightForm = 8 := by
  have h : submitEndDate overnightForm -
      localDateTime overnightForm.date overnightForm.startTime = 28800000 := by decide
  unfold submitTotalHours
  dsimp only
  rw [h]
  norm_num [breakMinutes, overnightForm]

theorem submitTotalHours_emptyForm : submitTotalHours emptyForm = 0 := by
  have h : submitEndDate emptyForm -
      localDateTime emptyForm.date emptyForm.startTime = 0 := by decide
  unfold submitTotalHours
  dsimp only
  rw [h]
  norm_num [breakMinutes, emptyForm]

theorem storeCalls_submitHandler (api : API) (form : ManualEntryForm) :
    storeCalls (submitHandler api form) =
      if submitTotalHours form ≤ 0 then [] else [Effect.createTimeEntry (submitData form)] := by
  unfold submitHandler
  split_ifs with h
  · simp [storeCalls, Effect.isStoreCall]
  · cases api.createTimeEntry (submitData form) <;> simp [storeCalls, Effect.isStoreCall]

theorem createTimeEntry_mem_submitHandler (api : API) (form : ManualEntryForm)
    (data : EntryData) :
    Effect.createTimeEntry data ∈ submitHandler api form ↔
      0 < submitTotalHours form ∧ data = submitData form := by
  unfold submitHandler
  split_ifs with h
  · simp
    intro h0
    exact absurd h (not_le.mpr h0)
  · have h0 : 0 < submitTotalHours form := not_le.mp h
    cases api.createTimeEntry (submitData form) <;> simp [h0]

/-- On a host whose zone has a constant offset, for well-formed fields: the total
hours are `(e' - s)` in hours minus `b / 60`, where `e'` is the end time on the next
calendar day when the end time is earlier than the start time and on the entry date
otherwise; 22:00 to 06:00 with no break give 8. -/
theorem submitTotalHours_constant_offset (form : ManualEntryForm) :
    submitTotalHours form =
        (((if form.endTime.minuteOfDay < form.startTime.minuteOfDay
            then localDateTime (form.date + 1) form.endTime
            else localDateTime form.date form.endTime)
          - localDateTime form.date form.startTime : Int) : ℚ) / 3600000
        - (breakMinutes form.breakDuration : ℚ) / 60
      ∧ submitTotalHours overnightForm = 8 := by
  refine ⟨?_, submitTotalHours_overnightForm⟩
  unfold submitTotalHours
  dsimp only
  rw [submitEndDate_eq]
  norm_num

/-- For well-formed fields (the computed hours are then a number): the submit handler
calls `createTimeEntry` exactly when the computed total hours are strictly positive;
when they are zero or negative its only effect is the end-time form error; and the
record of every call it makes has status `pending_approval` and `total_hours > 0`. -/
theorem submitHandler_gate_wellFormed (api : API) (form : ManualEntryForm) :
    ((∃ data, Effect.createTimeEntry data ∈ submitHandler api form) ↔
        0 < submitTotalHours form)
      ∧ storeCalls (submitHandler api form) =
          (if 0 < submitTotalHours form then [Effect.createTimeEntry (submitData form)] else [])
      ∧ (submitTotalHours form ≤ 0 →
          submitHandler api form =
            [Effect.announceFormError "end-time" "End time must be after start time"])
      ∧ (∀ data, Effect.createTimeEntry data ∈ submitHandler api form →
          data.status = some "pending_approval" ∧
            ∃ hours, data.total_hours = some hours ∧ 0 < hours) := by
  refine ⟨?_, ?_, ?_, ?_⟩
  · constructor
    · rintro ⟨data, hmem⟩
      exact ((createTimeEntry_mem_submitHandler api form data).mp hmem).1
    · intro h
      exact ⟨submitData form, (createTimeEntry_mem_submitHandler api form _).mpr ⟨h, rfl⟩⟩
  · rw [storeCalls_submitHandler]
    by_cases h : submitTotalHours form ≤ 0
    · rw [if_pos h, if_neg (not_lt.mpr h)]
    · rw [if_neg h, if_pos (not_le.mp h)]
  · intro h
    unfold submitHandler
    rw [if_pos h]
  · intro data hmem
    obtain ⟨hpos, rfl⟩ := (createTimeEntry_mem_submitHandler api form data).mp hmem
    exact ⟨rfl, submitTotalHours form, rfl, hpos⟩

/-- C4 (evaluation at the failing input): the submitted `clock_in` and `clock_out` are
always the start and end times on the entry date itself; so for 22:00 to 06:00 the
handler computes 8 hours, passes validation and submits a record whose `clock_out` is
the 06:00 of the same date, sixteen hours before its `clock_in`. -/
theorem C4_overnight_clock_out_before_clock_in (api : API) :
    (∀ form : ManualEntryForm,
        (submitData form).clock_in = some (localDateTime form.date form.startTime)
          ∧ (submitData form).clock_out = some (localDateTime form.date form.endTime))
      ∧ submitTotalHours overnightForm = 8
      ∧ storeCalls (submitHandler api overnightForm) =
          [Effect.createTimeEntry (submitData overnightForm)]
      ∧ (submitData overnightForm).clock_in = some (localDateTime 19723 ⟨22, 0⟩)
      ∧ (submitData overnightForm).clock_out = some (localDateTime 19723 ⟨6, 0⟩)
      ∧ localDateTime 19723 ⟨6, 0⟩ < localDateTime 19723 ⟨22, 0⟩
      ∧ localDateTime 19723 ⟨22, 0⟩ - localDateTime 19723 ⟨6, 0⟩ = 16 * 3600000 := by
  refine ⟨fun _ => ⟨rfl, rfl⟩, submitTotalHours_overnightForm, ?_, rfl, rfl, by decide,
    by decide⟩
  rw [storeCalls_submitHandler, submitTotalHours_overnightForm]
  norm_num

/-- C5 (evaluation at the failing input): with a current session `entry` and a store
that accepts the create, `handleClockIn` still creates a second `active` record and
replaces the current session by it. -/
theorem C5_clock_in_while_active (entry record : TimeEntry) (profile : Option UserProfile)
    (now : Int) :
    handleClockIn (acceptingStore record) { activeEntry := some entry, userProfile := profile }
        now =
      ({ activeEntry := some record, userProfile := profile },
        [Effect.createTimeEntry { clock_in := some now, status := some "active" },
         Effect.call "updateUIForActiveEntry",
         Effect.call "startTimer",
         Effect.announce "Clocked in successfully. Your work day has started." "assertive",
         Effect.call "loadTodaySummary"]) := by
  rfl

theorem handleClockOut_state (api : API) (entry : TimeEntry) (profile : Option UserProfile)
    (now : Int) :
    (handleClockOut api { activeEntry := some entry, userProfile := profile } now).1 =
      if (api.updateTimeEntry entry.id
            { clock_out := some now, status := some "completed",
              total_hours := some (clockOutTotalHours entry now) }).success
      then { activeEntry := none, userProfile := profile }
      else { activeEntry := some entry, userProfile := profile } := by
  unfold handleClockOut
  dsimp only
  cases api.updateTimeEntry entry.id _ <;> simp [StoreResult.success]

/-- C6 (counterexample): a session clocked in at 09:00 and clocked out at the same
instant has 0 computed hours, yet `handleClockOut` sends the update and, the store
accepting it, clears the current session. -/
theorem C6_counterexample :
    clockOutTotalHours (sessionEntry "active" (localDateTime 19723 ⟨9, 0⟩) none none)
        (localDateTime 19723 ⟨9, 0⟩) ≤ 0
      ∧ ¬ (storeCalls
            (handleClockOut (acceptingStore (sessionEntry "completed" 0 none none))
              { activeEntry :=
                  some (sessionEntry "active" (localDateTime 19723 ⟨9, 0⟩) none none) }
              (localDateTime 19723 ⟨9, 0⟩)).2 = []
          ∧ (handleClockOut (acceptingStore (sessionEntry "completed" 0 none none))
              { activeEntry :=
                  some (sessionEntry "active" (localDateTime 19723 ⟨9, 0⟩) none none) }
              (localDateTime 19723 ⟨9, 0⟩)).1 =
            { activeEntry :=
                some (sessionEntry "active" (localDateTime 19723 ⟨9, 0⟩) none none) }) := by
  constructor
  · rw [clockOutTotalHours_eq]
    simp [sessionEntry, recordedBreakMs]
  · rw [storeCalls_handleClockOut]
    simp

/-- C6 (amended): `handleClockOut` makes no local check of the computed hours. For
every current session whose computed total hours are zero or negative it still sends
the one update, carrying that non-positive `total_hours`; the current session is then
cleared when the store reports success and left unchanged when it reports failure. -/
theorem C6_clock_out_sends_nonpositive_hours (api : API) (entry : TimeEntry)
    (profile : Option UserProfile) (now : Int)
    (hours : clockOutTotalHours entry now ≤ 0) :
    (∃ total, total ≤ 0 ∧
        storeCalls
            (handleClockOut api { activeEntry := some entry, userProfile := profile } now).2 =
          [Effect.updateTimeEntry entry.id
            { clock_out := some now, status := some "completed", total_hours := some total }]
        ∧ (handleClockOut api { activeEntry := some entry, userProfile := profile } now).1 =
            if (api.updateTimeEntry entry.id
                  { clock_out := some now, status := some "completed",
                    total_hours := some total }).success
            then { activeEntry := none, userProfile := profile }
            else { activeEntry := some entry, userProfile := profile }) :=
  ⟨clockOutTotalHours entry now, hours, storeCalls_handleClockOut api entry profile now,
    handleClockOut_state api entry profile now⟩

/-- Witness of the amended C6 at a clock-out one minute before the recorded
clock-in, against a store that fails. -/
theorem C6_clock_out_sends_nonpositive_hours_witness :
    ∃ total, total ≤ 0 ∧
      storeCalls
          (handleClockOut (failingStore "Failed to fetch")
            { activeEntry := some (sessionEntry "active" 60000 none none), userProfile := none }
            0).2 =
        [Effect.updateTimeEntry "e1"
          { clock_out := some 0, status := some "completed", total_hours := some total }]
      ∧ (handleClockOut (failingStore "Failed to fetch")
            { activeEntry := some (sessionEntry "active" 60000 none none), userProfile := none }
            0).1 =
          if ((failingStore "Failed to fetch").updateTimeEntry "e1"
                { clock_out := some 0, status := some "completed",
                  total_hours := some total }).success
          then { activeEntry := none, userProfile := none }
          else { activeEntry := some (sessionEntry "active" 60000 none none),
                 userProfile := none } :=
  C6_clock_out_sends_nonpositive_hours (failingStore "Failed to fetch")
    (sessionEntry "active" 60000 none none) none 0
    (by rw [clockOutTotalHours_eq]; norm_num [sessionEntry, recordedBreakMs])

theorem handleClockIn_failed (api : API) (st : Dashboard) (now : Int)
    (h : allWritesFailed api (handleClockIn api st now).2) :
    (handleClockIn api st now).1 = st := by
  unfold allWritesFailed at h
  unfold handleClockIn at h ⊢
  dsimp only at h ⊢
  cases hr : api.createTimeEntry { clock_in := some now, status := some "active" } with
  | ok record =>
    rw [hr] at h
    have := h (Effect.createTimeEntry { clock_in := some now, status := some "active" })
      (by simp) rfl
    simp [API.reportsFailure, hr, StoreResult.success] at this
  | fail e c => rfl

theorem handleClockOut_failed (api : API) (st : Dashboard) (now : Int)
    (h : allWritesFailed api (handleClockOut api st now).2) :
    (handleClockOut api st now).1 = st := by
  unfold allWritesFailed at h
  unfold handleClockOut at h ⊢
  cases hs : st.activeEntry with
  | none => rfl
  | some entry =>
    rw [hs] at h
    dsimp only at h ⊢
    cases hr : api.updateTimeEntry entry.id
        { clock_out := some now, status := some "completed",
          total_hours := some (clockOutTotalHours entry now) } with
    | ok record =>
      rw [hr] at h
      have := h (Effect.updateTimeEntry entry.id
        { clock_out := some now, status := some "completed",
          total_hours := some (clockOutTotalHours entry now) }) (by simp) rfl
      simp [API.reportsFailure, hr, StoreResult.success] at this
    | fail e c => rfl

theorem handleBreakStart_failed (api : API) (st : Dashboard) (now : Int)
    (h : allWritesFailed api (handleBreakStart api st now).2) :
    (handleBreakStart api st now).1 = st := by
  unfold allWritesFailed at h
  unfold handleBreakStart at h ⊢
  cases hs : st.activeEntry with
  | none => rfl
  | some entry =>
    rw [hs] at h
    dsimp only at h ⊢
    by_cases hst : entry.status ≠ "active"
    · rw [if_pos hst]
    · rw [if_neg hst] at h ⊢
      cases hr : api.updateTimeEntry entry.id
          { break_start := some now, status := some "on_break" } with
      | ok record =>
        rw [hr] at h
        have := h (Effect.updateTimeEntry entry.id
          { break_start := some now, status := some "on_break" }) (by simp) rfl
        simp [API.reportsFailure, hr, StoreResult.success] at this
      | fail e c => rfl

theorem handleBreakEnd_failed (api : API) (st : Dashboard) (now : Int)
    (h : allWritesFailed api (handleBreakEnd api st now).2) :
    (handleBreakEnd api st now).1 = st := by
  unfold allWritesFailed at h
  unfold handleBreakEnd at h ⊢
  cases hs : st.activeEntry with
  | none => rfl
  | some entry =>
    rw [hs] at h
    dsimp only at h ⊢
    by_cases hst : entry.status ≠ "on_break"
    · rw [if_pos hst]
    · rw [if_neg hst] at h ⊢
      cases hr : api.updateTimeEntry entry.id
          { break_end := some now, status := some "active" } with
      | ok record =>
        rw [hr] at h
        have := h (Effect.updateTimeEntry entry.id
          { break_end := some now, status := some "active" }) (by simp) rfl
        simp [API.reportsFailure, hr, StoreResult.success] at this
      | fail e c => rfl

theorem allWritesFailed_failingStore (error : String) (effects : List Effect) :
    allWritesFailed (failingStore error) effects := by
  intro effect _ hcall
  cases effect <;> simp_all [Effect.isStoreCall, API.reportsFailure, failingStore,
    StoreResult.success]

/-- C7: for each of the four session transitions and every prior state, when every
store call the transition made was answered with a failure result, the state after
the transition (in particular `activeEntry`) is the state before it. -/
theorem C7_failure_leaves_state (api : API) (st : Dashboard) (now : Int) :
    (allWritesFailed api (handleClockIn api st now).2 → (handleClockIn api st now).1 = st)
      ∧ (allWritesFailed api (handleBreakStart api st now).2 →
          (handleBreakStart api st now).1 = st)
      ∧ (allWritesFailed api (handleBreakEnd api st now).2 →
          (handleBreakEnd api st now).1 = st)
      ∧ (allWritesFailed api (handleClockOut api st now).2 →
          (handleClockOut api st now).1 = st) :=
  ⟨handleClockIn_failed api st now, handleBreakStart_failed api st now,
    handleBreakEnd_failed api st now, handleClockOut_failed api st now⟩

/-- Witness of C7: against a store that fails every write, each transition made
from an active (or on-break) session sends its write and leaves the session as it
was. -/
theorem C7_failure_leaves_state_witness :
    storeCalls (handleClockOut (failingStore "Failed to fetch")
        { activeEntry := some (sessionEntry "active" 0 none none) } 60000).2 ≠ []
      ∧ (handleClockIn (failingStore "Failed to fetch")
          { activeEntry := none } 60000).1 = { activeEntry := none }
      ∧ (handleBreakStart (failingStore "Failed to fetch")
          { activeEntry := some (sessionEntry "active" 0 none none) } 60000).1 =
          { activeEntry := some (sessionEntry "active" 0 none none) }
      ∧ (handleBreakEnd (failingStore "Failed to fetch")
          { activeEntry := some (sessionEntry "on_break" 0 (some 30000) none) } 60000).1 =
          { activeEntry := some (sessionEntry "on_break" 0 (some 30000) none) }
      ∧ (handleClockOut (failingStore "Failed to fetch")
          { activeEntry := some (sessionEntry "active" 0 none none) } 60000).1 =
          { activeEntry := some (sessionEntry "active" 0 none none) } :=
  ⟨by rw [storeCalls_handleClockOut]; simp,
   (C7_failure_leaves_state _ _ _).1 (allWritesFailed_failingStore _ _),
   (C7_failure_leaves_state _ _ _).2.1 (allWritesFailed_failingStore _ _),
   (C7_failure_leaves_state _ _ _).2.2.1 (allWritesFailed_failingStore _ _),
   (C7_failure_leaves_state _ _ _).2.2.2 (allWritesFailed_failingStore _ _)⟩

theorem storeCalls_handleBreakStart (api : API) (st : Dashboard) (now : Int) :
    storeCalls (handleBreakStart api st now).2 =
      (match st.activeEntry with
        | some entry =>
          if entry.status = "active"
          then [Effect.updateTimeEntry entry.id
                  { break_start := some now, status := some "on_break" }]
          else []
        | none => []) := by
  unfold handleBreakStart
  cases st.activeEntry with
  | none => rfl
  | some entry =>
    dsimp only
    by_cases hst : entry.status = "active"
    · rw [if_neg (not_not.mpr hst), if_pos hst]
      cases api.updateTimeEntry entry.id _ <;> simp [storeCalls, Effect.isStoreCall]
    · rw [if_pos hst, if_neg hst]
      rfl

theorem storeCalls_handleBreakEnd (api : API) (st : Dashboard) (now : Int) :
    storeCalls (handleBreakEnd api st now).2 =
      (match st.activeEntry with
        | some entry =>
          if entry.status = "on_break"
          then [Effect.updateTimeEntry entry.id
                  { break_end := some now, status := some "active" }]
          else []
        | none => []) := by
  unfold handleBreakEnd
  cases st.activeEntry with
  | none => rfl
  | some entry =>
    dsimp only
    by_cases hst : entry.status = "on_break"
    · rw [if_neg (not_not.mpr hst), if_pos hst]
      cases api.updateTimeEntry entry.id _ <;> simp [storeCalls, Effect.isStoreCall]
    · rw [if_pos hst, if_neg hst]
      rfl

/-- C8: `handleBreakStart` sends a store update (`break_start = now`,
`status = 'on_break'`, on the current entry) exactly when a current session exists
with status `active`, and `handleBreakEnd` sends one (`break_end = now`,
`status = 'active'`) exactly when a current session exists with status `on_break`;
in every other state the handler has no effect at all and returns the state it was
given. -/
theorem C8_break_guards (api : API) (st : Dashboard) (now : Int) :
    storeCalls (handleBreakStart api st now).2 =
        (match st.activeEntry with
          | some entry =>
            if entry.status = "active"
            then [Effect.updateTimeEntry entry.id
                    { break_start := some now, status := some "on_break" }]
            else []
          | none => [])
      ∧ storeCalls (handleBreakEnd api st now).2 =
        (match st.activeEntry with
          | some entry =>
            if entry.status = "on_break"
            then [Effect.updateTimeEntry entry.id
                    { break_end := some now, status := some "active" }]
            else []
          | none => [])
      ∧ ((¬ ∃ entry, st.activeEntry = some entry ∧ entry.status = "active") →
          handleBreakStart api st now = (st, []))
      ∧ ((¬ ∃ entry, st.activeEntry = some entry ∧ entry.status = "on_break") →
          handleBreakEnd api st now = (st, [])) := by
  refine ⟨storeCalls_handleBreakStart api st now, storeCalls_handleBreakEnd api st now, ?_, ?_⟩
  · intro h
    unfold handleBreakStart
    cases hs : st.activeEntry with
    | none => rfl
    | some entry =>
      dsimp only
      have hst : entry.status ≠ "active" := fun he => h ⟨entry, hs, he⟩
      rw [if_pos hst]
  · intro h
    unfold handleBreakEnd
    cases hs : st.activeEntry with
    | none => rfl
    | some entry =>
      dsimp only
      have hst : entry.status ≠ "on_break" := fun he => h ⟨entry, hs, he⟩
      rw [if_pos hst]

/-- Witness of C8: with no session `handleBreakStart` does nothing, and from an
`active` session (no break open) `handleBreakEnd` does nothing, even against a
store that would accept. -/
theorem C8_break_guards_witness :
    handleBreakStart (acceptingStore (sessionEntry "on_break" 0 (some 60000) none))
        { activeEntry := none } 60000 = ({ activeEntry := none }, [])
      ∧ handleBreakEnd (acceptingStore (sessionEntry "active" 0 none (some 60000)))
        { activeEntry := some (sessionEntry "active" 0 none none) } 60000 =
          ({ activeEntry := some (sessionEntry "active" 0 none none) }, []) :=
  ⟨(C8_break_guards _ _ _).2.2.1 (by simp),
   (C8_break_guards _ _ _).2.2.2 (by simp [sessionEntry])⟩

/-- C9: on a successful store call, `handleClockIn` from Inactive creates a record
with `clock_in = now` and status `active` and makes the record the store returned the
current session; `handleBreakStart` (from `active`) and `handleBreakEnd` (from
`on_break`) replace the current session by the record the store returned; and
`handleClockOut` sets the current session to none. -/
theorem C9_success_postconditions (api : API) (st : Dashboard) (now : Int)
    (record : TimeEntry) :
    (st.activeEntry = none →
        api.createTimeEntry { clock_in := some now, status := some "active" } = .ok record →
        storeCalls (handleClockIn api st now).2 =
            [Effect.createTimeEntry { clock_in := some now, status := some "active" }]
          ∧ (handleClockIn api st now).1 = { st with activeEntry := some record })
      ∧ (∀ entry, st.activeEntry = some entry → entry.status = "active" →
          api.updateTimeEntry entry.id { break_start := some now, status := some "on_break" } =
            .ok record →
          (handleBreakStart api st now).1 = { st with activeEntry := some record })
      ∧ (∀ entry, st.activeEntry = some entry → entry.status = "on_break" →
          api.updateTimeEntry entry.id { break_end := some now, status := some "active" } =
            .ok record →
          (handleBreakEnd api st now).1 = { st with activeEntry := some record })
      ∧ (∀ entry, st.activeEntry = some entry →
          api.updateTimeEntry entry.id
              { clock_out := some now, status := some "completed",
                total_hours := some (clockOutTotalHours entry now) } = .ok record →
          (handleClockOut api st now).1 = { st with activeEntry := none }) := by
  refine ⟨?_, ?_, ?_, ?_⟩
  · intro _ hr
    unfold handleClockIn
    dsimp only
    rw [hr]
    simp [storeCalls, Effect.isStoreCall]
  · intro entry hs hst hr
    unfold handleBreakStart
    rw [hs]
    dsimp only
    rw [if_neg (not_not.mpr hst), hr]
  · intro entry hs hst hr
    unfold handleBreakEnd
    rw [hs]
    dsimp only
    rw [if_neg (not_not.mpr hst), hr]
  · intro entry hs hr
    unfold handleClockOut
    rw [hs]
    dsimp only
    rw [hr]

/-- Witness of C9 against a store that accepts every write and returns a fixed
record: clock-in from Inactive, then break start, break end and clock-out. -/
theorem C9_success_postconditions_witness :
    (storeCalls (handleClockIn (acceptingStore (sessionEntry "active" 5 none none))
          { activeEntry := none } 5).2 =
        [Effect.createTimeEntry { clock_in := some 5, status := some "active" }]
      ∧ (handleClockIn (acceptingStore (sessionEntry "active" 5 none none))
          { activeEntry := none } 5).1 =
        { activeEntry := some (sessionEntry "active" 5 none none) })
      ∧ (handleBreakStart (acceptingStore (sessionEntry "on_break" 5 (some 7) none))
          { activeEntry := some (sessionEntry "active" 5 none none) } 7).1 =
        { activeEntry := some (sessionEntry "on_break" 5 (some 7) none) }
      ∧ (handleBreakEnd (acceptingStore (sessionEntry "active" 5 (some 7) (some 9)))
          { activeEntry := some (sessionEntry "on_break" 5 (some 7) none) } 9).1 =
        { activeEntry := some (sessionEntry "active" 5 (some 7) (some 9)) }
      ∧ (handleClockOut (acceptingStore (sessionEntry "completed" 5 (some 7) (some 9)))
          { activeEntry := some (sessionEntry "active" 5 (some 7) (some 9)) } 11).1 =
        { activeEntry := none } :=
  ⟨(C9_success_postconditions _ _ _ _).1 rfl rfl,
   (C9_success_postconditions _ _ _ _).2.1 _ rfl rfl rfl,
   (C9_success_postconditions _ _ _ _).2.2.1 _ rfl rfl rfl,
   (C9_success_postconditions _ _ _ _).2.2.2 _ rfl rfl⟩

/-- C10: after a `handleClockOut` whose update the store accepted the current session
is none, and a second `handleClockOut` from that state, at any instant and against
any store, sends nothing and leaves the state Inactive. -/
theorem C10_clock_out_twice (api api2 : API) (entry record : TimeEntry)
    (profile : Option UserProfile) (now now2 : Int)
    (accepted : api.updateTimeEntry entry.id
        { clock_out := some now, status := some "completed",
          total_hours := some (clockOutTotalHours entry now) } = .ok record) :
    (handleClockOut api { activeEntry := some entry, userProfile := profile } now).1.activeEntry
        = none
      ∧ handleClockOut api2
          (handleClockOut api { activeEntry := some entry, userProfile := profile } now).1 now2 =
        ({ activeEntry := none, userProfile := profile }, []) := by
  have h1 : (handleClockOut api { activeEntry := some entry, userProfile := profile } now).1 =
      { activeEntry := none, userProfile := profile } := by
    rw [handleClockOut_state, accepted]
    rfl
  rw [h1]
  exact ⟨rfl, rfl⟩

/-- Witness of C10: two clock-outs in succession against an accepting store. -/
theorem C10_clock_out_twice_witness :
    (handleClockOut (acceptingStore (sessionEntry "completed" 0 none none))
        { activeEntry := some (sessionEntry "active" 0 none none), userProfile := none }
        3600000).1.activeEntry = none
      ∧ handleClockOut (acceptingStore (sessionEntry "completed" 0 none none))
          (handleClockOut (acceptingStore (sessionEntry "completed" 0 none none))
            { activeEntry := some (sessionEntry "active" 0 none none), userProfile := none }
            3600000).1 3600001 =
        ({ activeEntry := none, userProfile := none }, []) :=
  C10_clock_out_twice (acceptingStore (sessionEntry "completed" 0 none none))
    (acceptingStore (sessionEntry "completed" 0 none none))
    (sessionEntry "active" 0 none none) (sessionEntry "completed" 0 none none)
    none 3600000 3600001 rfl

theorem timesWithin_mono {entry : TimeEntry} {a b : Int} (h : timesWithin entry a)
    (hab : a ≤ b) : timesWithin entry b := by
  obtain ⟨h1, h2, h3⟩ := h
  refine ⟨le_trans h1 hab, ?_, ?_⟩
  · intro bs hbs
    exact ⟨(h2 bs hbs).1, le_trans (h2 bs hbs).2 hab⟩
  · intro be hbe
    exact ⟨(h3 be hbe).1, le_trans (h3 be hbe).2 hab⟩

theorem sessionWithin_mono {st : Dashboard} {a b : Int} (h : sessionWithin st a)
    (hab : a ≤ b) : sessionWithin st b :=
  fun entry he => timesWithin_mono (h entry he) hab

theorem sessionWithin_stepMerged (st : Dashboard) (t : Transition) (a now : Int)
    (h : sessionWithin st a) (han : a ≤ now) :
    sessionWithin (stepMerged st (t, now)).1 now := by
  cases t with
  | clockIn =>
    intro entry he
    simp [stepMerged, Transition.handler, handleClockIn, mergeStore, createdRecord,
      mergeFields, mergedField] at he
    subst he
    simp [timesWithin]
  | breakStart =>
    unfold stepMerged Transition.handler handleBreakStart
    dsimp only
    cases hs : st.activeEntry with
    | none => exact sessionWithin_mono h han
    | some e =>
      dsimp only
      by_cases hst : e.status ≠ "active"
      · rw [if_pos hst]
        exact sessionWithin_mono h han
      · rw [if_neg hst]
        obtain ⟨h1, h2, h3⟩ := h e hs
        intro entry he
        simp [mergeStore, hs] at he
        subst he
        refine ⟨?_, ?_, ?_⟩
        · simpa [mergeFields] using le_trans h1 han
        · intro bs hbs
          simp [mergeFields, mergedField] at hbs ⊢
          subst hbs
          exact ⟨le_trans h1 han, le_refl _⟩
        · intro be hbe
          simp [mergeFields, mergedField] at hbe ⊢
          exact ⟨(h3 be hbe).1, le_trans (h3 be hbe).2 han⟩
  | breakEnd =>
    unfold stepMerged Transition.handler handleBreakEnd
    dsimp only
    cases hs : st.activeEntry with
    | none => exact sessionWithin_mono h han
    | some e =>
      dsimp only
      by_cases hst : e.status ≠ "on_break"
      · rw [if_pos hst]
        exact sessionWithin_mono h han
      · rw [if_neg hst]
        obtain ⟨h1, h2, h3⟩ := h e hs
        intro entry he
        simp [mergeStore, hs] at he
        subst he
        refine ⟨?_, ?_, ?_⟩
        · simpa [mergeFields] using le_trans h1 han
        · intro bs hbs
          simp [mergeFields, mergedField] at hbs ⊢
          exact ⟨(h2 bs hbs).1, le_trans (h2 bs hbs).2 han⟩
        · intro be hbe
          simp [mergeFields, mergedField] at hbe ⊢
          subst hbe
          exact ⟨le_trans h1 han, le_refl _⟩
  | clockOut =>
    unfold stepMerged Transition.handler handleClockOut
    dsimp only
    cases hs : st.activeEntry with
    | none => exact sessionWithin_mono h han
    | some e =>
      intro entry he
      simp [mergeStore, hs] at he

theorem sessionWithin_runMerged (steps : List (Transition × Int)) (st : Dashboard)
    (a now : Int) (h : sessionWithin st a)
    (hchain : List.Chain (· ≤ ·) a (steps.map Prod.snd ++ [now])) :
    sessionWithin (runMerged st steps) now := by
  induction steps generalizing st a with
  | nil =>
    simp at hchain
    exact sessionWithin_mono h hchain
  | cons step rest ih =>
    obtain ⟨t, at_⟩ := step
    simp only [List.map_cons, List.cons_append, List.chain_cons] at hchain
    exact ih (stepMerged st (t, at_)).1 at_
      (sessionWithin_stepMerged st t a at_ h hchain.1) hchain.2

theorem clockOutTotalMs_nonneg (entry : TimeEntry) (now : Int) (h : timesWithin entry now) :
    0 ≤ clockOutTotalMs entry now := by
  obtain ⟨h1, h2, h3⟩ := h
  unfold clockOutTotalMs
  cases hbs : entry.break_start with
  | none => dsimp only; omega
  | some bs =>
    cases hbe : entry.break_end with
    | none => dsimp only; omega
    | some be =>
      dsimp only
      have := (h2 bs hbs).1
      have := (h3 be hbe).2
      omega

/-- C11 (evaluation at the failing input): clock-in at 0, a break from 1 to 2 and a
second break started at 3 are four successful transitions at non-decreasing
instants against the merging store; the second `handleBreakStart` overwrites
`break_start` and leaves the first break's `break_end`, so the current entry has both
recorded with `break_end = 2` before `break_start = 3` (and a clock-out at 4 would
subtract a break of -1 and compute 5 ms of work in 4 ms of session). -/
theorem C11_second_break_start_before_stale_end :
    List.Chain' (· ≤ ·) (secondBreakSteps.map Prod.snd)
      ∧ allSucceeded inactive secondBreakSteps = true
      ∧ (runMerged inactive secondBreakSteps).activeEntry =
          some { id := "rec", clock_in := 0, break_start := some 3, break_end := some 2,
                 status := "on_break" }
      ∧ ¬ ((3 : Int) ≤ 2)
      ∧ clockOutTotalMs
          { id := "rec", clock_in := 0, break_start := some 3, break_end := some 2,
            status := "on_break" } 4 = 5 := by
  refine ⟨by simp [secondBreakSteps], by decide, by decide, by decide, by decide⟩

/-- C12: in every state reached from Inactive by a sequence of clock-in, break-start,
break-end (and clock-out) transitions taken at non-decreasing instants against the
merging store, a clock-out of the current session at any later-or-equal instant
computes a `total_hours` that is non-negative. -/
theorem C12_clock_out_hours_nonneg (steps : List (Transition × Int)) (now : Int)
    (entry : TimeEntry)
    (ordered : List.Chain' (· ≤ ·) (steps.map Prod.snd ++ [now]))
    (current : (runMerged inactive steps).activeEntry = some entry) :
    0 ≤ clockOutTotalHours entry now := by
  have hwithin : timesWithin entry now := by
    cases steps with
    | nil => simp [runMerged, inactive] at current
    | cons step rest =>
      have hinit : sessionWithin inactive step.2 := by
        intro e he
        simp [inactive] at he
      have hchain : List.Chain (· ≤ ·) step.2 ((step :: rest).map Prod.snd ++ [now]) := by
        simp only [List.map_cons, List.cons_append, List.chain_cons]
        exact ⟨le_refl _, by simpa [List.Chain'] using ordered⟩
      exact sessionWithin_runMerged (step :: rest) inactive step.2 now hinit hchain entry
        current
  unfold clockOutTotalHours
  have h0 : (0 : ℚ) ≤ (clockOutTotalMs entry now : ℚ) := by
    exact_mod_cast clockOutTotalMs_nonneg entry now hwithin
  positivity

/-- Witness of C12: after clock-in at 0 and a break from 1 to 2, a clock-out at 3. -/
theorem C12_clock_out_hours_nonneg_witness :
    0 ≤ clockOutTotalHours
      { id := "rec", clock_in := 0, break_start := some 1, break_end := some 2,
        status := "active" } 3 :=
  C12_clock_out_hours_nonneg oneBreakSteps 3 _ (by simp [oneBreakSteps]) (by decide)

theorem summaryStep_regular (acc : PeriodSummary) (entry : TimeEntry) :
    (summaryStep acc entry).regularHours = acc.regularHours + min (hoursOf entry) 8 := by
  unfold summaryStep hoursOf
  cases hh : entry.total_hours with
  | none => cases entry.break_start <;> cases entry.break_end <;> simp
  | some hours =>
    by_cases h0 : hours = 0
    · cases entry.break_start <;> cases entry.break_end <;> simp [h0]
    · by_cases h8 : hours ≤ 8
      · cases entry.break_start <;> cases entry.break_end <;> simp [h0, h8]
      · have h8le : (8 : ℚ) ≤ hours := le_of_lt (not_le.mp h8)
        cases entry.break_start <;> cases entry.break_end <;> simp [h0, h8, h8le]

theorem summaryStep_overtime (acc : PeriodSummary) (entry : TimeEntry) :
    (summaryStep acc entry).overtimeHours = acc.overtimeHours + max 0 (hoursOf entry - 8) := by
  unfold summaryStep hoursOf
  cases hh : entry.total_hours with
  | none => cases entry.break_start <;> cases entry.break_end <;> simp
  | some hours =>
    by_cases h0 : hours = 0
    · cases entry.break_start <;> cases entry.break_end <;> simp [h0]
    · by_cases h8 : hours ≤ 8
      · cases entry.break_start <;> cases entry.break_end <;> simp [h0, h8]
      · have h8le : (8 : ℚ) ≤ hours := le_of_lt (not_le.mp h8)
        cases entry.break_start <;> cases entry.break_end <;> simp [h0, h8, h8le]

theorem foldl_summaryStep_regular (entries : List TimeEntry) (acc : PeriodSummary) :
    (entries.foldl summaryStep acc).regularHours =
      acc.regularHours + (entries.map (fun e => min (hoursOf e) 8)).sum := by
  induction entries generalizing acc with
  | nil => simp
  | cons e rest ih =>
    rw [List.foldl_cons, ih, summaryStep_regular, List.map_cons, List.sum_cons]
    ring

theorem foldl_summaryStep_overtime (entries : List TimeEntry) (acc : PeriodSummary) :
    (entries.foldl summaryStep acc).overtimeHours =
      acc.overtimeHours + (entries.map (fun e => max 0 (hoursOf e - 8))).sum := by
  induction entries generalizing acc with
  | nil => simp
  | cons e rest ih =>
    rw [List.foldl_cons, ih, summaryStep_overtime, List.map_cons, List.sum_cons]
    ring

/-- C13: for every list of entries the summary's regular hours are the sum over the
entries of `min(total_hours, 8)` and its overtime hours the sum of
`max(0, total_hours - 8)`, a missing `total_hours` counting as 0 (and a zero value
adding 0 to both): the split is taken per entry and then summed. One entry of 9.5
hours gives (8, 1.5) and one of 6 hours gives (6, 0). -/
theorem C13_summary_split (entries : List TimeEntry) :
    (periodSummary entries).regularHours = (entries.map (fun e => min (hoursOf e) 8)).sum
      ∧ (periodSummary entries).overtimeHours =
          (entries.map (fun e => max 0 (hoursOf e - 8))).sum
      ∧ (∀ (acc : PeriodSummary) (e : TimeEntry),
          (summaryStep acc { e with total_hours := none }).regularHours = acc.regularHours
            ∧ (summaryStep acc { e with total_hours := none }).overtimeHours =
                acc.overtimeHours
            ∧ (summaryStep acc { e with total_hours := some 0 }).regularHours =
                acc.regularHours
            ∧ (summaryStep acc { e with total_hours := some 0 }).overtimeHours =
                acc.overtimeHours)
      ∧ ((periodSummary [completedEntry 9.5]).regularHours = 8
          ∧ (periodSummary [completedEntry 9.5]).overtimeHours = 1.5)
      ∧ ((periodSummary [completedEntry 6]).regularHours = 6
          ∧ (periodSummary [completedEntry 6]).overtimeHours = 0) := by
  have hreg := fun l => foldl_summaryStep_regular l
    { totalHours := 0, regularHours := 0, overtimeHours := 0, breakHours := 0 }
  have hover := fun l => foldl_summaryStep_overtime l
    { totalHours := 0, regularHours := 0, overtimeHours := 0, breakHours := 0 }
  refine ⟨?_, ?_, ?_, ⟨?_, ?_⟩, ⟨?_, ?_⟩⟩
  · unfold periodSummary
    rw [hreg]
    simp
  · unfold periodSummary
    rw [hover]
    simp
  · intro acc e
    simp [summaryStep_regular, summaryStep_overtime, hoursOf]
  · unfold periodSummary
    rw [hreg]
    norm_num [hoursOf, completedEntry]
  · unfold periodSummary
    rw [hover]
    norm_num [hoursOf, completedEntry]
  · unfold periodSummary
    rw [hreg]
    norm_num [hoursOf, completedEntry]
  · unfold periodSummary
    rw [hover]
    norm_num [hoursOf, completedEntry]

theorem calculateDays_of_le (start finish : Int) (h : start ≤ finish) :
    calculateDays (some start) (some finish) =
      [FormEffect.clearFormError "end-date",
       FormEffect.showCalculatedDays
         (Int.ceil (((finish - start : Int) : ℚ) / 86400000) + 1)] := by
  unfold calculateDays
  dsimp only
  rw [if_neg (not_lt.mpr h), abs_of_nonneg (sub_nonneg.mpr h)]
  norm_num

theorem ceil_dateOnly_diff (d1 d2 : Int) :
    Int.ceil (((dateOnly d2 - dateOnly d1 : Int) : ℚ) / 86400000) = d2 - d1 := by
  have h : (((dateOnly d2 - dateOnly d1 : Int) : ℚ) / 86400000) = ((d2 - d1 : Int) : ℚ) := by
    unfold dateOnly
    push_cast
    ring
  rw [h, Int.ceil_intCast]

/-- C14: for start and end values with `end >= start` the day count `calculateDays`
shows is `ceil((end - start) / 86,400,000) + 1`; for two date-only values it is the
number of days between them plus one, which is at least 1 (2024-01-01 to 2024-01-03
gives 3); and for `end < start` it shows 0 and raises the end-date form error. -/
theorem C14_calculate_days (start finish : Int) :
    (start ≤ finish →
        calculateDays (some start) (some finish) =
          [FormEffect.clearFormError "end-date",
           FormEffect.showCalculatedDays
             (Int.ceil (((finish - start : Int) : ℚ) / 86400000) + 1)])
      ∧ (start ≤ finish →
          calculateDays (some (dateOnly start)) (some (dateOnly finish)) =
            [FormEffect.clearFormError "end-date",
             FormEffect.showCalculatedDays (finish - start + 1)]
          ∧ 1 ≤ finish - start + 1)
      ∧ (finish < start →
          calculateDays (some start) (some finish) =
            [FormEffect.announceFormError "end-date" "End date must be after start date",
             FormEffect.showCalculatedDays 0]) := by
  refine ⟨calculateDays_of_le start finish, ?_, ?_⟩
  · intro h
    have hd : dateOnly start ≤ dateOnly finish := by
      unfold dateOnly
      omega
    rw [calculateDays_of_le _ _ hd, ceil_dateOnly_diff]
    exact ⟨rfl, by omega⟩
  · intro h
    unfold calculateDays
    dsimp only
    rw [if_pos h]

/-- Witness of C14: 2024-01-01 (day 19723) to 2024-01-03 (day 19725) shows 3 days,
and the reversed pair shows 0 with the end-date error. -/
theorem C14_calculate_days_witness :
    (calculateDays (some (dateOnly 19723)) (some (dateOnly 19725)) =
        [FormEffect.clearFormError "end-date", FormEffect.showCalculatedDays 3])
      ∧ calculateDays (some (dateOnly 19725)) (some (dateOnly 19723)) =
        [FormEffect.announceFormError "end-date" "End date must be after start date",
         FormEffect.showCalculatedDays 0] :=
  ⟨((C14_calculate_days 19723 19725).2.1 (by decide)).1,
   (C14_calculate_days (dateOnly 19725) (dateOnly 19723)).2.2 (by decide)⟩

theorem timeOffRequests_timeOffSubmit (accepted : TimeOffData → Bool) (form : TimeOffForm) :
    timeOffRequests (timeOffSubmit accepted form) = (validTimeOffRequest form).toList := by
  unfold timeOffSubmit validTimeOffRequest
  cases orNull form.type with
  | none => simp [timeOffRequests]
  | some type =>
    cases form.startDate with
    | none => simp [timeOffRequests]
    | some start =>
      cases form.endDate with
      | none => simp [timeOffRequests]
      | some finish =>
        dsimp only
        have hiff : dateOnly finish < dateOnly start ↔ finish < start := by
          unfold dateOnly
          omega
        by_cases h : finish < start
        · rw [if_pos (hiff.mpr h), if_pos h]
          simp [timeOffRequests]
        · rw [if_neg (fun hc => h (hiff.mp hc)), if_neg h]
          cases accepted _ <;> simp [timeOffRequests]

/-- C15: the time-off submit handler calls `createTimeOffRequest` exactly when the
type is non-empty, both dates are non-empty and the end date is not earlier than the
start date, and then once, with exactly the entered type, start date, end date and
reason (null when empty); in every other case it makes no store call. -/
theorem C15_time_off_submit_gate (accepted : TimeOffData → Bool) (form : TimeOffForm) :
    timeOffRequests (timeOffSubmit accepted form) =
        (match orNull form.type, form.startDate, form.endDate with
          | some type, some start, some finish =>
            if finish < start then []
            else [{ type := type, start_date := start, end_date := finish,
                    reason := orNull form.reason }]
          | _, _, _ => [])
      ∧ ((∃ data, FormEffect.createTimeOffRequest data ∈ timeOffSubmit accepted form) ↔
          ∃ type start finish, form.type = some type ∧ type ≠ "" ∧
            form.startDate = some start ∧ form.endDate = some finish ∧ ¬ finish < start) := by
  have hreq := timeOffRequests_timeOffSubmit accepted form
  have hmem : ∀ data, FormEffect.createTimeOffRequest data ∈ timeOffSubmit accepted form ↔
      data ∈ timeOffRequests (timeOffSubmit accepted form) := by
    intro data
    unfold timeOffRequests
    rw [List.mem_filterMap]
    constructor
    · intro h
      exact ⟨_, h, rfl⟩
    · rintro ⟨effect, h, heq⟩
      cases effect <;> simp at heq
      subst heq
      exact h
  constructor
  · rw [hreq]
    unfold validTimeOffRequest
    cases orNull form.type <;> cases form.startDate <;> cases form.endDate <;>
      simp
    split_ifs <;> simp
  · simp only [hmem, hreq, Option.mem_toList, Option.mem_def]
    unfold validTimeOffRequest orNull
    constructor
    · rintro ⟨data, h⟩
      cases ht : form.type with
      | none => simp [ht] at h
      | some type =>
        by_cases hty : type = ""
        · simp [ht, hty] at h
        · cases hs : form.startDate with
          | none => simp [ht, hty, hs] at h
          | some start =>
            cases he : form.endDate with
            | none => simp [ht, hty, hs, he] at h
            | some finish =>
              by_cases hlt : finish < start
              · simp [ht, hty, hs, he, hlt] at h
              · exact ⟨type, start, finish, rfl, hty, rfl, rfl, hlt⟩
    · rintro ⟨type, start, finish, ht, hty, hs, he, hlt⟩
      simp [ht, hty, hs, he, hlt]

/-- Witness of C15: the PTO form for 2024-01-01 to 2024-01-03 with an empty reason
is submitted once, with a null reason. -/
theorem C15_time_off_submit_gate_witness :
    timeOffRequests (timeOffSubmit (fun _ => true) ptoForm) =
      [{ type := "pto", start_date := 19723, end_date := 19725, reason := none }] :=
  (C15_time_off_submit_gate (fun _ => true) ptoForm).1

/-- C16 (evaluation at the failing input): a rejected update yields
`{ success: false, error: error.message }` and nothing else. The result has no
status, so the result of a network failure (status 0) is the result of a policy
denial (403) with the same message, and it has no error message either when the
thrown error has none; `createTimeEntry` on the same network failure does carry the
status and the network text. `login`, `register`, `createTimeOffRequest` and
`getTimeOffRequests` fail in the same unclassified way. -/
theorem C16_update_failure_unclassified (id : String) (data : EntryData)
    (error : ClientError) :
    Gateway.updateTimeEntry (fun _ _ => .rejected error) id data =
        { success := false, error := error.message, status := none }
      ∧ Gateway.updateTimeEntry (fun _ _ => .rejected networkError) id data =
          Gateway.updateTimeEntry (fun _ _ => .rejected forbiddenError) id data
      ∧ (Gateway.updateTimeEntry (fun _ _ => .rejected networkError) id data).status = none
      ∧ (Gateway.updateTimeEntry (fun _ _ => .rejected { message := none, status := some 0 })
            id data).error = none
      ∧ Gateway.createTimeEntry (some "u1") (fun _ _ => .rejected networkError) data =
          { success := false, error := some "Network error: Unable to connect to server",
            status := some 0 }
      ∧ (Gateway.login (fun _ _ => (.rejected error : Outcome Unit)) "a@b.c" "pw").status = none
      ∧ (Gateway.register (fun _ => .rejected error) (fun _ => .resolved ())
            "a@b.c" "pw" "pw" "A").1.status = none
      ∧ (Gateway.createTimeOffRequest (some "u1")
            (fun _ _ _ => (.rejected error : Outcome Unit))
            { type := "pto", start_date := 19723, end_date := 19725, reason := none }).status
          = none
      ∧ (Gateway.getTimeOffRequests (some "u1")
            (fun _ => (.rejected error : Outcome (List Unit)))).status = none := by
  refine ⟨rfl, rfl, rfl, rfl, ?_, rfl, rfl, rfl, rfl⟩
  simp [Gateway.createTimeEntry, withModelId, classifiedFailure, networkError,
    Gateway.createTimeEntryMessages]

theorem classifiedFailure_eq {α : Type} (messages : FailureMessages) (error : ClientError) :
    (classifiedFailure messages error : GatewayResult α) =
      { success := false, error := some (categoryMessage messages error),
        status := error.status } := by
  unfold classifiedFailure categoryMessage statusCategory
  cases hs : error.status with
  | none => simp
  | some code =>
    by_cases h0 : code = 0
    · simp [h0]
    · by_cases h403 : code = 403
      · simp [h403]
      · by_cases h404 : code = 404
        · simp [h404]
        · cases error.message <;> simp [h0, h403, h404]

/-- C17: for `createTimeEntry`, `getTimeEntries`, `getActiveTimeEntry`,
`createEditRequest` and `getUserProfile`, the result of every failure is determined
by the category of the thrown error's status (network for 0 or absent, forbidden for
403, notFound for 404, other otherwise): its error message is the operation's fixed
text for the first three categories and the underlying message, or the operation's
default text when that is empty, for `other`; its status is the error's status. (A
call made with no auth model fails inside the `try` with an error that has no
status: the network category.) -/
theorem C17_failure_classification (user : String) (error : ClientError) (data : EntryData)
    (filter : Option String) (entryId reason : String) :
    Gateway.createTimeEntry (some user) (fun _ _ => .rejected error) data =
        { success := false,
          error := some (categoryMessage Gateway.createTimeEntryMessages error),
          status := error.status }
      ∧ Gateway.getTimeEntries (some user) (fun _ => .rejected error) filter =
        { success := false,
          error := some (categoryMessage Gateway.getTimeEntriesMessages error),
          status := error.status }
      ∧ Gateway.getActiveTimeEntry (some user) (fun _ => .rejected error) =
        { success := false,
          error := some (categoryMessage Gateway.getActiveTimeEntryMessages error),
          status := error.status }
      ∧ (Gateway.createEditRequest (some user) (fun _ => .rejected error) entryId reason data :
            GatewayResult Unit) =
        { success := false,
          error := some (categoryMessage Gateway.createEditRequestMessages error),
          status := error.status }
      ∧ (Gateway.getUserProfile (some user) (fun _ => .rejected error) :
            GatewayResult UserProfile) =
        { success := false,
          error := some (categoryMessage Gateway.getUserProfileMessages error),
          status := error.status }
      ∧ Gateway.createTimeEntry none (fun _ _ => .rejected error) data =
        { success := false,
          error := some (categoryMessage Gateway.createTimeEntryMessages noModelError),
          status := none }
      ∧ (categoryMessage Gateway.createTimeEntryMessages networkError =
            "Network error: Unable to connect to server"
          ∧ categoryMessage Gateway.createTimeEntryMessages { message := none, status := none } =
            "Network error: Unable to connect to server"
          ∧ categoryMessage Gateway.createTimeEntryMessages forbiddenError =
            "Cannot create time entry: Collection not configured. See POCKETBASE_SETUP.md"
          ∧ categoryMessage Gateway.createTimeEntryMessages
              { message := some "x", status := some 404 } =
            "Collection not found: time_entries must be created. See POCKETBASE_SETUP.md"
          ∧ categoryMessage Gateway.createTimeEntryMessages
              { message := some "Something went wrong.", status := some 400 } =
            "Something went wrong."
          ∧ categoryMessage Gateway.createTimeEntryMessages
              { message := some "", status := some 500 } = "Failed to create time entry") := by
  refine ⟨?_, ?_, ?_, ?_, ?_, ?_, ?_⟩
  rotate_left 5
  · simp only [Gateway.createTimeEntry, withModelId, classifiedFailure_eq]
    rfl
  · refine ⟨by decide, by decide, by decide, by decide, by decide, by decide⟩
  · simp only [Gateway.createTimeEntry, withModelId, classifiedFailure_eq]
  · simp only [Gateway.getTimeEntries, withModelId, classifiedFailure_eq]
  · simp only [Gateway.getActiveTimeEntry, withModelId, classifiedFailure_eq]
  · simp only [Gateway.createEditRequest, withModelId, classifiedFailure_eq]
  · simp only [Gateway.getUserProfile, withModelId, classifiedFailure_eq]

/-- C18 (counterexample): a break-end attempted from an `active` session with no
break open is an attempt from a state in which the transition is not valid; the
handler returns without any effect, so there is neither a user-visible message nor
an announcement. -/
theorem C18_counterexample :
    (handleBreakEnd (acceptingStore (sessionEntry "active" 0 none (some 60000)))
        { activeEntry := some (sessionEntry "active" 0 none none) } 60000).2 = []
      ∧ reported
          (handleBreakEnd (acceptingStore (sessionEntry "active" 0 none (some 60000)))
            { activeEntry := some (sessionEntry "active" 0 none none) } 60000).2 = false := by
  decide

/-- C18 (amended): for clock-in and clock-out, every attempt whose store call
returns an error produces a user-visible message (an alert) and an assertive
accessibility announcement; an attempt from a state in which the transition is not
valid (clock-out with no session, break-start unless the session is `active`,
break-end unless it is `on_break`) produces no effect at all. -/
theorem C18_failures_reported_or_silent (api : API) (st : Dashboard) (now : Int) :
    ((api.createTimeEntry { clock_in := some now, status := some "active" }).success = false →
        reported (handleClockIn api st now).2 = true)
      ∧ (∀ entry, st.activeEntry = some entry →
          (api.updateTimeEntry entry.id
              { clock_out := some now, status := some "completed",
                total_hours := some (clockOutTotalHours entry now) }).success = false →
          reported (handleClockOut api st now).2 = true)
      ∧ (st.activeEntry = none → (handleClockOut api st now).2 = [])
      ∧ ((¬ ∃ entry, st.activeEntry = some entry ∧ entry.status = "active") →
          (handleBreakStart api st now).2 = [])
      ∧ ((¬ ∃ entry, st.activeEntry = some entry ∧ entry.status = "on_break") →
          (handleBreakEnd api st now).2 = []) := by
  refine ⟨?_, ?_, ?_, ?_, ?_⟩
  · intro h
    unfold handleClockIn
    dsimp only
    cases hr : api.createTimeEntry { clock_in := some now, status := some "active" } with
    | ok record => simp [hr, StoreResult.success] at h
    | fail e c => simp [reported, Effect.isVisibleMessage, Effect.isAnnouncement]
  · intro entry hs h
    unfold handleClockOut
    rw [hs]
    dsimp only
    cases hr : api.updateTimeEntry entry.id
        { clock_out := some now, status := some "completed",
          total_hours := some (clockOutTotalHours entry now) } with
    | ok record => simp [hr, StoreResult.success] at h
    | fail e c => simp [reported, Effect.isVisibleMessage, Effect.isAnnouncement]
  · intro hs
    unfold handleClockOut
    rw [hs]
  · intro h
    unfold handleBreakStart
    cases hs : st.activeEntry with
    | none => rfl
    | some entry =>
      dsimp only
      have hst : entry.status ≠ "active" := fun he => h ⟨entry, hs, he⟩
      rw [if_pos hst]
  · intro h
    unfold handleBreakEnd
    cases hs : st.activeEntry with
    | none => rfl
    | some entry =>
      dsimp only
      have hst : entry.status ≠ "on_break" := fun he => h ⟨entry, hs, he⟩
      rw [if_pos hst]

/-- Witness of the amended C18: a clock-in and a clock-out against a failing store
are reported; a clock-out with no session and a break-start with no session are
silent. -/
theorem C18_failures_reported_or_silent_witness :
    reported (handleClockIn (failingStore "Failed to fetch") { activeEntry := none } 0).2 = true
      ∧ reported (handleClockOut (failingStore "Failed to fetch")
          { activeEntry := some (sessionEntry "active" 0 none none) } 60000).2 = true
      ∧ (handleClockOut (failingStore "Failed to fetch") { activeEntry := none } 0).2 = []
      ∧ (handleBreakStart (failingStore "Failed to fetch") { activeEntry := none } 0).2 = [] :=
  ⟨(C18_failures_reported_or_silent _ _ _).1 rfl,
   (C18_failures_reported_or_silent _ _ _).2.1 _ rfl rfl,
   (C18_failures_reported_or_silent _ _ _).2.2.1 rfl,
   (C18_failures_reported_or_silent _ _ _).2.2.2.1 (by simp)⟩

/-- C19: for every authenticated user id `u` and every filter `f` (the empty default
included), `getTimeEntries` queries `time_entries` with the filter text `user="u" `
followed by `f` and the sort `-created`: a store that answers exactly that query
(and rejects any other) makes it succeed, and the data of the result is the
store's list unchanged. -/
theorem C19_get_time_entries_query (u : String) (f : String) (entries : List TimeEntry) :
    Gateway.getTimeEntries (some u)
        (answerOnly
          { collection := "time_entries", filter := "user=\"" ++ u ++ "\" " ++ f,
            sort := some "-created" } entries) (some f) =
        { success := true, data := some entries }
      ∧ Gateway.getTimeEntries (some u)
        (answerOnly
          { collection := "time_entries", filter := "user=\"" ++ u ++ "\" ",
            sort := some "-created" } entries) none =
        { success := true, data := some entries } := by
  constructor <;> simp [Gateway.getTimeEntries, withModelId, answerOnly]

/-- C20: `register` returns `{ success: true, data: user }` whenever the creation of
the user record succeeds, after attempting the creation of the default profile
(PTO 15, sick 10, role `employee`, overtime threshold 8) and whether or not that
attempt succeeds; it returns a failure result exactly when the creation of the user
fails. -/
theorem C20_register (createUser : Gateway.UserData → Outcome Gateway.User)
    (createProfile : Gateway.ProfileData → Outcome Unit)
    (email password passwordConfirm name : String) :
    (∀ user,
        createUser { email := email, password := password,
                     passwordConfirm := passwordConfirm, name := name,
                     emailVisibility := true } = .resolved user →
        Gateway.register createUser createProfile email password passwordConfirm name =
          ({ success := true, data := some user },
           [{ user := user.id, pto_balance := 15, sick_balance := 10, role := "employee",
              overtime_threshold := 8 }]))
      ∧ ((Gateway.register createUser createProfile email password passwordConfirm name).1.success
            = false ↔
          ∃ error,
            createUser { email := email, password := password,
                         passwordConfirm := passwordConfirm, name := name,
                         emailVisibility := true } = .rejected error) := by
  constructor
  · intro user h
    unfold Gateway.register
    dsimp only
    rw [h]
    dsimp only
    cases createProfile _ <;> rfl
  · unfold Gateway.register
    dsimp only
    cases createUser _ with
    | resolved user =>
      dsimp only
      cases createProfile _ <;> simp
    | rejected error => simp [plainFailure]

/-- Witness of C20: the user is created and the creation of the profile fails;
registration succeeds with the user as data. -/
theorem C20_register_witness :
    Gateway.register (fun d => .resolved { id := "u1", email := d.email, name := d.name })
        (fun _ => .rejected forbiddenError) "a@b.c" "pw" "pw" "Ann" =
      ({ success := true, data := some { id := "u1", email := "a@b.c", name := "Ann" } },
       [{ user := "u1", pto_balance := 15, sick_balance := 10, role := "employee",
          overtime_threshold := 8 }]) :=
  (C20_register _ _ "a@b.c" "pw" "pw" "Ann").1 _ rfl

theorem hoursSince_gt_twelve (clockIn now : Int) :
    (((now - clockIn : Int) : ℚ) / (1000 * 60 * 60) > 12) ↔ 43200000 < now - clockIn := by
  rw [gt_iff_lt, lt_div_iff₀ (by norm_num)]
  have h : (12 : ℚ) * (1000 * 60 * 60) = ((43200000 : Int) : ℚ) := by norm_num
  rw [h, Int.cast_lt]

theorem checkMissedClockOut_eq (st : Dashboard) (now : Int) :
    checkMissedClockOut st now =
      (match st.activeEntry with
        | none => []
        | some e =>
          if e.status = "active" ∧ 43200000 < now - e.clock_in
          then [missedClockOutNotification] else []) := by
  unfold checkMissedClockOut
  cases st.activeEntry with
  | none => rfl
  | some e =>
    dsimp only
    by_cases hst : e.status = "active"
    · rw [if_pos hst]
      by_cases hlt : 43200000 < now - e.clock_in
      · rw [if_pos ((hoursSince_gt_twelve e.clock_in now).mpr hlt), if_pos ⟨hst, hlt⟩]
      · rw [if_neg (mt (hoursSince_gt_twelve e.clock_in now).mp hlt),
          if_neg (fun h => hlt h.2)]
    · rw [if_neg hst, if_neg (fun h => hst h.1)]

/-- C21: `checkMissedClockOut` emits the missed-clock-out notification exactly when a
current session exists, its status is `active` and the time since its `clock_in` is
strictly more than 12 hours (43,200,000 ms), and otherwise emits nothing: nothing
with no session, on break, or at exactly 12 hours. -/
theorem C21_missed_clock_out_check (st : Dashboard) (now : Int) (entry : TimeEntry) :
    (checkMissedClockOut st now = [missedClockOutNotification] ↔
        ∃ e, st.activeEntry = some e ∧ e.status = "active" ∧ 43200000 < now - e.clock_in)
      ∧ (checkMissedClockOut st now = [] ↔
          ¬ ∃ e, st.activeEntry = some e ∧ e.status = "active" ∧ 43200000 < now - e.clock_in)
      ∧ checkMissedClockOut { activeEntry := none, userProfile := st.userProfile } now = []
      ∧ checkMissedClockOut { activeEntry := some { entry with status := "on_break" } } now = []
      ∧ checkMissedClockOut { activeEntry := some { entry with status := "active" } }
          (entry.clock_in + 43200000) = []
      ∧ checkMissedClockOut { activeEntry := some { entry with status := "active" } }
          (entry.clock_in + 43200001) = [missedClockOutNotification] := by
  refine ⟨?_, ?_, rfl, ?_, ?_, ?_⟩
  · rw [checkMissedClockOut_eq]
    cases hs : st.activeEntry with
    | none => simp
    | some e =>
      dsimp only
      by_cases h : e.status = "active" ∧ 43200000 < now - e.clock_in
      · simp [h]
      · rw [if_neg h]
        simp
        intro h1
        by_contra h2
        exact h ⟨h1, by omega⟩
  · rw [checkMissedClockOut_eq]
    cases hs : st.activeEntry with
    | none => simp
    | some e =>
      dsimp only
      by_cases h : e.status = "active" ∧ 43200000 < now - e.clock_in
      · simp [h]
      · rw [if_neg h]
        simp
        intro h1
        by_contra h2
        exact h ⟨h1, by omega⟩
  · rw [checkMissedClockOut_eq]
    simp
  · rw [checkMissedClockOut_eq]
    simp
  · rw [checkMissedClockOut_eq]
    simp

/-- C22 (counterexample): for a session clocked in at 0 that stays `active`, the
checks at 12:00, 12:01 and 12:02 after the clock-in emit nothing, the notification,
and the notification again. -/
theorem C22_counterexample :
    periodicChecks { activeEntry := some (sessionEntry "active" 0 none none) } 43200000 3 =
      [[], [missedClockOutNotification], [missedClockOutNotification]] := by
  simp [periodicChecks, List.range_succ, checkMissedClockOut_eq, sessionEntry]

theorem periodicChecks_getElem? (st : Dashboard) (first : Int) (count k : Nat)
    (hk : k < count) :
    (periodicChecks st first count)[k]? =
      some (checkMissedClockOut st (first + (k : Int) * 60000)) := by
  unfold periodicChecks
  rw [List.getElem?_map, List.getElem?_range hk]
  rfl

/-- C22 (amended): the notification is not one-shot. For a session that stays
`active`, the check number `k` of the once-per-minute checks emits the notification
exactly when more than 12 hours have elapsed at that check; so once a check has
emitted it, every later check emits it again. -/
theorem C22_notification_repeats (st : Dashboard) (entry : TimeEntry) (first : Int)
    (count k : Nat) (current : st.activeEntry = some entry)
    (active : entry.status = "active") (hk : k < count) :
    (periodicChecks st first count)[k]? =
        some (if 43200000 < first + (k : Int) * 60000 - entry.clock_in
              then [missedClockOutNotification] else [])
      ∧ (∀ j, k ≤ j → j < count →
          (periodicChecks st first count)[k]? = some [missedClockOutNotification] →
          (periodicChecks st first count)[j]? = some [missedClockOutNotification]) := by
  have hcheck : ∀ i : Nat, checkMissedClockOut st (first + (i : Int) * 60000) =
      if 43200000 < first + (i : Int) * 60000 - entry.clock_in
      then [missedClockOutNotification] else [] := by
    intro i
    rw [checkMissedClockOut_eq, current]
    dsimp only
    by_cases h : 43200000 < first + (i : Int) * 60000 - entry.clock_in
    · rw [if_pos ⟨active, h⟩, if_pos h]
    · rw [if_neg (fun hc => h hc.2), if_neg h]
  constructor
  · rw [periodicChecks_getElem? st first count k hk, hcheck]
  · intro j hkj hj hemit
    rw [periodicChecks_getElem? st first count k hk, hcheck] at hemit
    rw [periodicChecks_getElem? st first count j hj, hcheck]
    by_cases h : 43200000 < first + (k : Int) * 60000 - entry.clock_in
    · have hj2 : 43200000 < first + (j : Int) * 60000 - entry.clock_in := by
        have : (k : Int) ≤ (j : Int) := by exact_mod_cast hkj
        omega
      rw [if_pos hj2]
    · rw [if_neg h] at hemit
      simp at hemit

/-- Witness of the amended C22: clocked in at 0 and still `active`, the check at
12:01 (number 1 of three checks from 12:00) emits, and so does the check at 12:02. -/
theorem C22_notification_repeats_witness :
    (periodicChecks { activeEntry := some (sessionEntry "active" 0 none none) } 43200000 3)[1]?
        = some [missedClockOutNotification]
      ∧ (periodicChecks { activeEntry := some (sessionEntry "active" 0 none none) }
            43200000 3)[2]? = some [missedClockOutNotification] :=
  have h := C22_notification_repeats
    { activeEntry := some (sessionEntry "active" 0 none none) }
    (sessionEntry "active" 0 none none) 43200000 3 1 rfl rfl (by decide)
  ⟨h.1, h.2 2 (by decide) (by decide) h.1⟩

/-- C23 (evaluation at the failing input): clock-in at 0:00, a break from 1:00 to
2:00 and a second break from 3:00 to 4:00 are five successful transitions at
non-decreasing instants; the current entry then records only the second break, and
the tick at 5:00 displays 04:00:00, although two of the five hours were spent on
break (three hours of work). -/
theorem C23_timer_forgets_first_break :
    List.Chain' (· ≤ ·) (twoBreakSteps.map Prod.snd)
      ∧ allSucceeded inactive twoBreakSteps = true
      ∧ (runMerged inactive twoBreakSteps).activeEntry =
          some { id := "rec", clock_in := 0, break_start := some 10800000,
                 break_end := some 14400000, status := "active" }
      ∧ timerWorkTime (runMerged inactive twoBreakSteps) 18000000 = some 14400000
      ∧ timerTick (runMerged inactive twoBreakSteps) 18000000 =
          some { hours := 4, minutes := 0, seconds := 0 }
      ∧ (18000000 : Int) - 0 - ((7200000 - 3600000) + (14400000 - 10800000)) = 10800000 := by
  refine ⟨by simp [twoBreakSteps], by decide, by decide, by decide, by decide, by decide⟩

theorem max_zero_not_neg (x : ℚ) : ¬ (max 0 x < 0) :=
  not_lt.mpr (le_max_left 0 x)

/-- C24 (evaluation at the failing input): `calculateHours` tests the clamped value,
so its validation never announces the end-time error: for every start, end and break
it shows `max(0, raw)` and clears the error. For 09:00 to 10:00 with a 120-minute
break the raw value is -1, the display is 0 and the error is cleared. -/
theorem C24_live_validation_never_fires (start finish : WallTime) (breakParsed : Option Int) :
    calculateHours (some start) (some finish) breakParsed =
        some (max 0 (liveRawHours start finish breakParsed),
              [Effect.clearFormError "end-time"])
      ∧ liveRawHours ⟨9, 0⟩ ⟨10, 0⟩ (some 120) = -1
      ∧ calculateHours (some ⟨9, 0⟩) (some ⟨10, 0⟩) (some 120) =
          some (0, [Effect.clearFormError "end-time"]) := by
  have hgen : ∀ s f b, calculateHours (some s) (some f) b =
      some (max 0 (liveRawHours s f b), [Effect.clearFormError "end-time"]) := by
    intro s f b
    unfold calculateHours
    dsimp only
    rw [if_neg (max_zero_not_neg _)]
  have hraw : liveRawHours ⟨9, 0⟩ ⟨10, 0⟩ (some 120) = -1 := by
    have hms : (if localDateTime 10957 ⟨10, 0⟩ < localDateTime 10957 ⟨9, 0⟩
        then setDatePlusOne (localDateTime 10957 ⟨10, 0⟩)
        else localDateTime 10957 ⟨10, 0⟩) - localDateTime 10957 ⟨9, 0⟩ = 3600000 := by
      decide
    unfold liveRawHours
    dsimp only
    rw [hms]
    norm_num [breakMinutes]
  refine ⟨hgen start finish breakParsed, hraw, ?_⟩
  rw [hgen, hraw]
  norm_num

theorem addOvertimeNotification_mem_handleClockOut (api : API) (entry record : TimeEntry)
    (profile : Option UserProfile) (now : Int) (hours : ℚ)
    (accepted : api.updateTimeEntry entry.id
        { clock_out := some now, status := some "completed",
          total_hours := some (clockOutTotalHours entry now) } = .ok record) :
    Effect.addOvertimeNotification hours ∈
        (handleClockOut api { activeEntry := some entry, userProfile := profile } now).2 ↔
      hours = clockOutTotalHours entry now ∧
        clockOutTotalHours entry now > overtimeThreshold profile := by
  unfold handleClockOut
  dsimp only
  rw [accepted]
  dsimp only
  by_cases h : clockOutTotalHours entry now > overtimeThreshold profile
  · rw [if_pos h]
    simp [h]
  · rw [if_neg h]
    simp [h]

/-- C25 (counterexample): with a loaded profile whose `overtime_threshold` is 0, a
successful clock-out of 5 hours exceeds that threshold, yet no overtime notification
is added (the code falls back to 8 for a threshold of 0). -/
theorem C25_counterexample :
    clockOutTotalHours (sessionEntry "active" 0 none none) 18000000 >
        statedThreshold (some zeroThresholdProfile)
      ∧ ¬ ∃ hours, Effect.addOvertimeNotification hours ∈
          (handleClockOut (acceptingStore (sessionEntry "completed" 0 none none))
            { activeEntry := some (sessionEntry "active" 0 none none),
              userProfile := some zeroThresholdProfile } 18000000).2 := by
  have hhours : clockOutTotalHours (sessionEntry "active" 0 none none) 18000000 = 5 := by
    rw [clockOutTotalHours_eq]
    norm_num [sessionEntry, recordedBreakMs]
  constructor
  · rw [hhours]
    norm_num [statedThreshold, zeroThresholdProfile]
  · rintro ⟨hours, hmem⟩
    rw [addOvertimeNotification_mem_handleClockOut _ _ (sessionEntry "completed" 0 none none)
      _ _ _ rfl] at hmem
    rw [hhours] at hmem
    norm_num [overtimeThreshold, zeroThresholdProfile] at hmem

/-- C25 (amended): after a successful clock-out the overtime notification is added
(with the computed total hours) if and only if those hours are strictly greater than
the threshold, where the threshold is the loaded profile's `overtime_threshold` and
is 8 when no profile is loaded, when the profile has no threshold, or when its
threshold is 0. -/
theorem C25_overtime_notification (api : API) (entry record : TimeEntry)
    (profile : Option UserProfile) (now : Int)
    (accepted : api.updateTimeEntry entry.id
        { clock_out := some now, status := some "completed",
          total_hours := some (clockOutTotalHours entry now) } = .ok record) :
    ((∃ hours, Effect.addOvertimeNotification hours ∈
          (handleClockOut api { activeEntry := some entry, userProfile := profile } now).2) ↔
        clockOutTotalHours entry now >
          (match profile with
            | none => 8
            | some p =>
              match p.overtime_threshold with
              | none => 8
              | some t => if t = 0 then 8 else t))
      ∧ (∀ hours, Effect.addOvertimeNotification hours ∈
            (handleClockOut api { activeEntry := some entry, userProfile := profile } now).2 →
          hours = clockOutTotalHours entry now) := by
  have hthr : overtimeThreshold profile =
      (match profile with
        | none => 8
        | some p =>
          match p.overtime_threshold with
          | none => 8
          | some t => if t = 0 then 8 else t) := rfl
  rw [← hthr]
  constructor
  · constructor
    · rintro ⟨hours, hmem⟩
      exact ((addOvertimeNotification_mem_handleClockOut api entry record profile now hours
        accepted).mp hmem).2
    · intro h
      exact ⟨_, (addOvertimeNotification_mem_handleClockOut api entry record profile now _
        accepted).mpr ⟨rfl, h⟩⟩
  · intro hours hmem
    exact ((addOvertimeNotification_mem_handleClockOut api entry record profile now hours
      accepted).mp hmem).1

/-- Witness of the amended C25: with no profile loaded, a clock-out of 9 hours adds
the overtime notification. -/
theorem C25_overtime_notification_witness :
    ∃ hours, Effect.addOvertimeNotification hours ∈
      (handleClockOut (acceptingStore (sessionEntry "completed" 0 none none))
        { activeEntry := some (sessionEntry "active" 0 none none), userProfile := none }
        32400000).2 :=
  (C25_overtime_notification (acceptingStore (sessionEntry "completed" 0 none none))
    (sessionEntry "active" 0 none none) (sessionEntry "completed" 0 none none) none 32400000
    rfl).1.mpr (by
      rw [clockOutTotalHours_eq]
      norm_num [sessionEntry, recordedBreakMs])

/-- C26: the edit-request control of a timesheet row, which requests an edit of that
entry's id, is rendered exactly when the entry's status is `completed`; an entry that
is `active`, `on_break` or `pending_approval` shows `--`. -/
theorem C26_edit_control (entry : TimeEntry) :
    ((∃ id, editCell entry = EditCell.editRequestButton id) ↔ entry.status = "completed")
      ∧ (editCell entry = EditCell.editRequestButton entry.id ∨ editCell entry = EditCell.dashes)
      ∧ editCell { entry with status := "completed" } = EditCell.editRequestButton entry.id
      ∧ editCell { entry with status := "active" } = EditCell.dashes
      ∧ editCell { entry with status := "on_break" } = EditCell.dashes
      ∧ editCell { entry with status := "pending_approval" } = EditCell.dashes := by
  refine ⟨?_, ?_, ?_, ?_, ?_, ?_⟩
  · unfold editCell
    by_cases h : entry.status = "completed"
    · simp [h]
    · simp [h]
  · unfold editCell
    by_cases h : entry.status = "completed"
    · left
      rw [if_pos h]
    · right
      rw [if_neg h]
  · simp [editCell]
  · simp [editCell]
  · simp [editCell]
  · simp [editCell]

theorem summaryStep_total (acc : PeriodSummary) (entry : TimeEntry) :
    (summaryStep acc entry).totalHours = acc.totalHours + hoursOf entry := by
  unfold summaryStep hoursOf
  cases hh : entry.total_hours with
  | none => cases entry.break_start <;> cases entry.break_end <;> simp
  | some hours =>
    by_cases h0 : hours = 0
    · cases entry.break_start <;> cases entry.break_end <;> simp [h0]
    · by_cases h8 : hours ≤ 8
      · cases entry.break_start <;> cases entry.break_end <;> simp [h0, h8]
      · cases entry.break_start <;> cases entry.break_end <;> simp [h0, h8]

theorem foldl_summaryStep_total (entries : List TimeEntry) (acc : PeriodSummary) :
    (entries.foldl summaryStep acc).totalHours =
      acc.totalHours + (entries.map hoursOf).sum := by
  induction entries generalizing acc with
  | nil => simp
  | cons e rest ih =>
    rw [List.foldl_cons, ih, summaryStep_total, List.map_cons, List.sum_cons]
    ring

theorem periodSummary_total (entries : List TimeEntry) :
    (periodSummary entries).totalHours = (entries.map hoursOf).sum := by
  unfold periodSummary
  rw [foldl_summaryStep_total]
  simp

theorem periodSummary_regular (entries : List TimeEntry) :
    (periodSummary entries).regularHours =
      (entries.map (fun e => min (hoursOf e) 8)).sum := by
  unfold periodSummary
  rw [foldl_summaryStep_regular]
  simp

theorem periodSummary_overtime (entries : List TimeEntry) :
    (periodSummary entries).overtimeHours =
      (entries.map (fun e => max 0 (hoursOf e - 8))).sum := by
  unfold periodSummary
  rw [foldl_summaryStep_overtime]
  simp

theorem min_add_max_split (h : ℚ) : min h 8 + max 0 (h - 8) = h := by
  by_cases h8 : h ≤ 8
  · rw [min_eq_left h8, max_eq_left (by linarith)]
    ring
  · have h8le : 8 ≤ h := le_of_lt (not_le.mp h8)
    rw [min_eq_right h8le, max_eq_right (by linarith)]
    ring

theorem split_sums (entries : List TimeEntry) :
    (entries.map (fun e => min (hoursOf e) 8)).sum +
        (entries.map (fun e => max 0 (hoursOf e - 8))).sum =
      (entries.map hoursOf).sum := by
  induction entries with
  | nil => simp
  | cons e rest ih =>
    simp only [List.map_cons, List.sum_cons]
    have := min_add_max_split (hoursOf e)
    linarith

/-- In exact arithmetic the period summary satisfies
`regularHours + overtimeHours = totalHours`, where `totalHours` is the sum of the
entries' `total_hours` (a missing value counting as 0). -/
theorem periodSummary_exact_split (entries : List TimeEntry) :
    (periodSummary entries).regularHours + (periodSummary entries).overtimeHours =
        (periodSummary entries).totalHours
      ∧ (periodSummary entries).totalHours = (entries.map hoursOf).sum := by
  refine ⟨?_, periodSummary_total entries⟩
  rw [periodSummary_regular, periodSummary_overtime, periodSummary_total]
  exact split_sums entries

theorem overtime_sum_le (entries : List TimeEntry)
    (nonneg : ∀ e ∈ entries, 0 ≤ hoursOf e) :
    0 ≤ (entries.map hoursOf).sum ∧
      (entries.map (fun e => max 0 (hoursOf e - 8))).sum ≤
        max 0 ((entries.map hoursOf).sum - 8) := by
  induction entries with
  | nil => simp
  | cons e rest ih =>
    have he : 0 ≤ hoursOf e := nonneg e (List.mem_cons_self e rest)
    obtain ⟨hT, hO⟩ := ih (fun x hx => nonneg x (List.mem_cons_of_mem e hx))
    simp only [List.map_cons, List.sum_cons]
    refine ⟨by linarith, ?_⟩
    have h1 : (0 : ℚ) ≤ max 0 (hoursOf e + (rest.map hoursOf).sum - 8) := le_max_left _ _
    have h2 : hoursOf e + (rest.map hoursOf).sum - 8 ≤
        max 0 (hoursOf e + (rest.map hoursOf).sum - 8) := le_max_right _ _
    rcases le_total (hoursOf e - 8) 0 with hle | hge
    · rw [max_eq_left hle]
      rcases le_total ((rest.map hoursOf).sum - 8) 0 with hTle | hTge
      · rw [max_eq_left hTle] at hO
        linarith
      · rw [max_eq_right hTge] at hO
        linarith
    · rw [max_eq_right hge]
      rcases le_total ((rest.map hoursOf).sum - 8) 0 with hTle | hTge
      · rw [max_eq_left hTle] at hO
        linarith
      · rw [max_eq_right hTge] at hO
        linarith

/-- C28: for every list of entries whose `total_hours` are all non-negative, the
period overtime of the summary (the sum of the per-entry overtime above 8 hours) is
at most `max(0, period total - 8)`, the overtime of the period total against the
8-hour threshold; and for two entries of 6 hours it is strictly smaller (0 against
4). -/
theorem C28_per_entry_overtime_le (entries : List TimeEntry)
    (nonneg : ∀ e ∈ entries, 0 ≤ hoursOf e) :
    (periodSummary entries).overtimeHours ≤ max 0 ((periodSummary entries).totalHours - 8)
      ∧ (periodSummary [completedEntry 6, completedEntry 6]).overtimeHours = 0
      ∧ max 0 ((periodSummary [completedEntry 6, completedEntry 6]).totalHours - 8) = 4 := by
  refine ⟨?_, ?_, ?_⟩
  · rw [periodSummary_overtime, periodSummary_total]
    exact (overtime_sum_le entries nonneg).2
  · rw [periodSummary_overtime]
    norm_num [hoursOf, completedEntry]
  · rw [periodSummary_total]
    norm_num [hoursOf, completedEntry]

/-- Witness of C28: an entry of 9.5 hours and an entry of 6 hours. -/
theorem C28_per_entry_overtime_le_witness :
    (periodSummary [completedEntry 9.5, completedEntry 6]).overtimeHours ≤
      max 0 ((periodSummary [completedEntry 9.5, completedEntry 6]).totalHours - 8) :=
  (C28_per_entry_overtime_le [completedEntry 9.5, completedEntry 6] (by
    intro e he
    simp only [List.mem_cons, List.mem_singleton, List.not_mem_nil, or_false] at he
    rcases he with rfl | rfl <;> norm_num [hoursOf, completedEntry])).1

/-- C29: for every non-negative work time `w` in milliseconds the hours `h`, minutes
`m` and seconds `s` of the timer display satisfy `0 <= m < 60`, `0 <= s < 60` and
`h * 3600 + m * 60 + s = floor(w / 1000)`. -/
theorem C29_timer_display (w : Int) (nonneg : 0 ≤ w) :
    0 ≤ (timerDisplay w).minutes ∧ (timerDisplay w).minutes < 60
      ∧ 0 ≤ (timerDisplay w).seconds ∧ (timerDisplay w).seconds < 60
      ∧ (timerDisplay w).hours * 3600 + (timerDisplay w).minutes * 60
          + (timerDisplay w).seconds = w / 1000 := by
  unfold timerDisplay
  dsimp only
  rw [Int.tmod_eq_emod nonneg (by norm_num), Int.tmod_eq_emod nonneg (by norm_num)]
  omega

/-- Witness of C29: 3,725,999 ms display as 1 hour, 2 minutes and 5 seconds. -/
theorem C29_timer_display_witness :
    0 ≤ (timerDisplay 3725999).minutes ∧ (timerDisplay 3725999).minutes < 60
      ∧ 0 ≤ (timerDisplay 3725999).seconds ∧ (timerDisplay 3725999).seconds < 60
      ∧ (timerDisplay 3725999).hours * 3600 + (timerDisplay 3725999).minutes * 60
          + (timerDisplay 3725999).seconds = 3725999 / 1000 :=
  C29_timer_display 3725999 (by decide)

theorem kindSuffix_password (el : FocusedElement) (value : String)
    (input : el.tagName = "input") (password : el.type = some "password")
    (nonempty : value ≠ "") :
    kindSuffix { el with value := value } =
      if el.role.getD "" = "button" then ", button"
      else if el.role.getD "" = "link" then ", link"
      else ", password input, current value: hidden" := by
  unfold kindSuffix
  simp only [input, password]
  by_cases hb : el.role.getD "" = "button"
  · simp [hb]
  · by_cases hl : el.role.getD "" = "link"
    · simp [hl]
    · simp [hb, hl, nonempty]

/-- C30: for an input of type `password`, any two non-empty values give the same
focus announcement, all other attributes of the element being equal; unless the
element has the role `button` or `link` (whose announcement mentions no value at
all), the kind part of the text is `, password input, current value: hidden`. -/
theorem C30_password_not_disclosed (screenReader : Bool) (el : FocusedElement)
    (v1 v2 : String) (input : el.tagName = "input") (password : el.type = some "password")
    (nonempty1 : v1 ≠ "") (nonempty2 : v2 ≠ "") :
    announceFocusedElement screenReader { el with value := v1 } =
        announceFocusedElement screenReader { el with value := v2 }
      ∧ focusAnnouncement { el with value := v1 } = focusAnnouncement { el with value := v2 }
      ∧ (el.role.getD "" ≠ "button" → el.role.getD "" ≠ "link" →
          focusAnnouncement { el with value := v1 } =
            accessibleName el ++ ", password input, current value: hidden" ++ stateSuffix el) := by
  have hname : ∀ v, accessibleName { el with value := v } = accessibleName el := fun _ => rfl
  have hstate : ∀ v, stateSuffix { el with value := v } = stateSuffix el := fun _ => rfl
  have hfocus : focusAnnouncement { el with value := v1 } =
      focusAnnouncement { el with value := v2 } := by
    unfold focusAnnouncement
    rw [hname v1, hname v2, hstate v1, hstate v2,
      kindSuffix_password el v1 input password nonempty1,
      kindSuffix_password el v2 input password nonempty2]
  refine ⟨?_, hfocus, ?_⟩
  · unfold announceFocusedElement
    simp only [hfocus]
  · intro hb hl
    unfold focusAnnouncement
    rw [hname v1, hstate v1, kindSuffix_password el v1 input password nonempty1, if_neg hb,
      if_neg hl]

/-- Witness of C30: the same password field holding `hunter2` and holding
`correct horse` is announced with the same text, which shows `hidden`. -/
theorem C30_password_not_disclosed_witness :
    announceFocusedElement true (passwordField "hunter2") =
        announceFocusedElement true (passwordField "correct horse")
      ∧ announceFocusedElement true (passwordField "hunter2") =
        some "Password, password input, current value: hidden, required" :=
  ⟨(C30_password_not_disclosed true (passwordField "") "hunter2" "correct horse" rfl rfl
      (by decide) (by decide)).1,
   by decide⟩

theorem rawSubmitTotalHours_wellFormed (zone : HostZone) (date : Int) (start finish : WallTime)
    (breakParsed : Option Int) (category notes : Option String) :
    rawSubmitTotalHours zone
        { date := some date, startTime := some start, endTime := some finish,
          breakDuration := breakParsed, category := category, notes := notes } =
      some ((((if zone.parse date finish < zone.parse date start
                then zone.setDatePlusOne (zone.parse date finish)
                else zone.parse date finish)
              - zone.parse date start : Int) : ℚ) / 3600000
            - (breakMinutes breakParsed : ℚ) / 60) := by
  unfold rawSubmitTotalHours parseDateTime
  dsimp only
  norm_num

theorem setDatePlusOne_parse (zone : HostZone) (date : Int) (time : WallTime)
    (roundTrip : zone.offsetAtEpoch (zone.parse date time) =
      zone.offsetAtLocal (localDateTime date time)) :
    zone.setDatePlusOne (zone.parse date time) = zone.parse (date + 1) time := by
  have hnext : localDateTime (date + 1) time = localDateTime date time + 86400000 := by
    unfold localDateTime
    ring
  unfold HostZone.setDatePlusOne
  dsimp only
  rw [roundTrip]
  unfold HostZone.parse
  rw [hnext]
  have hsimp : localDateTime date time - zone.offsetAtLocal (localDateTime date time) +
      zone.offsetAtLocal (localDateTime date time) = localDateTime date time := by ring
  rw [hsimp]

theorem rawSubmitTotalHours_toRaw (offset : Int) (form : ManualEntryForm) :
    rawSubmitTotalHours (fixedZone offset) form.toRaw = some (submitTotalHours form) := by
  unfold ManualEntryForm.toRaw
  rw [rawSubmitTotalHours_wellFormed]
  unfold submitTotalHours submitEndDate setDatePlusOne
  simp only [HostZone.parse, HostZone.setDatePlusOne, fixedZone]
  congr 2
  split_ifs with h1 h2 h2
  · push_cast
    ring
  · omega
  · omega
  · push_cast
    ring

/-- C2 (counterexample): on a host in America/New_York, the entry of 2024-03-09 for
22:00 to 06:00 with no break has 7 total hours, not 8: the end, moved to 06:00 of
2024-03-10, is after the change to daylight-saving time. -/
theorem C2_counterexample :
    rawSubmitTotalHours newYork2024 springForwardForm = some 7
      ∧ rawSubmitTotalHours newYork2024 springForwardForm ≠ some 8 := by
  have h7 : rawSubmitTotalHours newYork2024 springForwardForm = some 7 := by
    have hms : (if newYork2024.parse 19791 ⟨6, 0⟩ < newYork2024.parse 19791 ⟨22, 0⟩
        then newYork2024.setDatePlusOne (newYork2024.parse 19791 ⟨6, 0⟩)
        else newYork2024.parse 19791 ⟨6, 0⟩) - newYork2024.parse 19791 ⟨22, 0⟩ =
        25200000 := by decide
    unfold springForwardForm
    rw [rawSubmitTotalHours_wellFormed, hms]
    norm_num [breakMinutes]
  refine ⟨h7, ?_⟩
  rw [h7]
  norm_num

/-- C2 (amended): for every host zone and every submission with well-formed date,
start time `s`, end time `e` and a break of `b` minutes, the handler's total hours
are `(e' - s)` in hours minus `b / 60`, where `e'` is `e` after
`setDate(getDate() + 1)` when `e` is earlier than `s` and `e` itself otherwise; that
`e'` is the end time read on the next calendar day (when the zone reads the end time
back as it was entered); and on a host whose zone has a constant offset, 22:00 to
06:00 with no break give 8. -/
theorem C2_manual_total_hours_in_zone (zone : HostZone) (date : Int) (start finish : WallTime)
    (breakParsed : Option Int) (category notes : Option String) (offset : Int) :
    rawSubmitTotalHours zone
        { date := some date, startTime := some start, endTime := some finish,
          breakDuration := breakParsed, category := category, notes := notes } =
        some ((((if zone.parse date finish < zone.parse date start
                  then zone.setDatePlusOne (zone.parse date finish)
                  else zone.parse date finish)
                - zone.parse date start : Int) : ℚ) / 3600000
              - (breakMinutes breakParsed : ℚ) / 60)
      ∧ (zone.offsetAtEpoch (zone.parse date finish) =
            zone.offsetAtLocal (localDateTime date finish) →
          zone.setDatePlusOne (zone.parse date finish) = zone.parse (date + 1) finish)
      ∧ rawSubmitTotalHours (fixedZone offset)
          { date := some date, startTime := some ⟨22, 0⟩, endTime := some ⟨6, 0⟩,
            breakDuration := none, category := category, notes := notes } = some 8 := by
  refine ⟨rawSubmitTotalHours_wellFormed zone date start finish breakParsed category notes,
    setDatePlusOne_parse zone date finish, ?_⟩
  rw [rawSubmitTotalHours_wellFormed]
  simp only [HostZone.parse, HostZone.setDatePlusOne, fixedZone, localDateTime]
  have hlt : date * 86400000 + (((6 : Fin 24) : Int) * 60 + ((0 : Fin 60) : Int)) * 60000
      - offset <
      date * 86400000 + (((22 : Fin 24) : Int) * 60 + ((0 : Fin 60) : Int)) * 60000
      - offset := by
    have h6 : (((6 : Fin 24) : Nat) : Int) = 6 := by decide
    have h22 : (((22 : Fin 24) : Nat) : Int) = 22 := by decide
    have h0 : (((0 : Fin 60) : Nat) : Int) = 0 := by decide
    rw [h6, h22, h0]
    omega
  rw [if_pos hlt]
  have h6 : (((6 : Fin 24) : Nat) : Int) = 6 := by decide
  have h22 : (((22 : Fin 24) : Nat) : Int) = 22 := by decide
  have h0 : (((0 : Fin 60) : Nat) : Int) = 0 := by decide
  rw [h6, h22, h0]
  have hdiff : date * 86400000 + (6 * 60 + 0) * 60000 - offset + offset + 86400000 - offset
      - (date * 86400000 + (22 * 60 + 0) * 60000 - offset) = 28800000 := by ring
  rw [hdiff]
  norm_num [breakMinutes]

/-- Witness of the amended C2: in America/New_York the end time 06:00 of 2024-03-09
is read back as entered, and its next calendar day is 06:00 of 2024-03-10. -/
theorem C2_manual_total_hours_in_zone_witness :
    newYork2024.setDatePlusOne (newYork2024.parse 19791 ⟨6, 0⟩) =
      newYork2024.parse (19791 + 1) ⟨6, 0⟩ :=
  (C2_manual_total_hours_in_zone newYork2024 19791 ⟨22, 0⟩ ⟨6, 0⟩ none none none 0).2.1
    (by decide)

theorem submittedRecords_rawSubmitHandler (zone : HostZone)
    (accepted : ManualEntryRecord → Bool) (form : RawManualEntryForm) :
    submittedRecords (rawSubmitHandler zone accepted form) =
      if notPositive (rawSubmitTotalHours zone form) then []
      else [rawSubmitRecord zone form] := by
  unfold rawSubmitHandler
  by_cases h : notPositive (rawSubmitTotalHours zone form) = true
  · rw [if_pos h, if_pos h]
    rfl
  · rw [if_neg h, if_neg h]
    cases accepted (rawSubmitRecord zone form) <;> simp [submittedRecords]

/-- C3 (evaluation at the failing input): with the start time left empty the start
date is invalid and the computed total hours are `NaN`, which is not greater than 0;
`NaN <= 0` is false, so the handler announces no error and calls `createTimeEntry`
with a record whose `total_hours` is `NaN` and whose `clock_in` is no date-time. -/
theorem C3_missing_start_time_submitted (zone : HostZone)
    (accepted : ManualEntryRecord → Bool) :
    rawSubmitTotalHours zone missingStartForm = none
      ∧ notPositive (rawSubmitTotalHours zone missingStartForm) = false
      ∧ submittedRecords (rawSubmitHandler zone accepted missingStartForm) =
          [{ clock_in := none, clock_out := some (zone.parse 19723 ⟨17, 0⟩),
             status := "pending_approval", total_hours := none, category := none,
             notes := none }]
      ∧ SubmitEffect.announceFormError "end-time" "End time must be after start time" ∉
          rawSubmitHandler zone accepted missingStartForm := by
  have hnan : rawSubmitTotalHours zone missingStartForm = none := rfl
  refine ⟨hnan, by rw [hnan]; rfl, ?_, ?_⟩
  · rw [submittedRecords_rawSubmitHandler, hnan]
    rfl
  · unfold rawSubmitHandler
    rw [hnan]
    cases accepted (rawSubmitRecord zone missingStartForm) <;> simp [notPositive]

/-- C27 (counterexample): for entries of 2.2 and 8.1 hours the accumulators are
total 10.3, regular 10.2 and overtime 0.09999999999999964; regular + overtime is
10.299999999999999 as a double, and not 10.3 as an exact sum either. -/
theorem C27_counterexample :
    periodSummaryDouble [some double2_2, some double8_1] =
        { totalHours := scaled 5798384520239514 79,
          regularHours := scaled 5742089524897382 79,
          overtimeHours := scaled 7205759403792768 72 }
      ∧ addDouble (periodSummaryDouble [some double2_2, some double8_1]).regularHours
          (periodSummaryDouble [some double2_2, some double8_1]).overtimeHours =
        scaled 5798384520239513 79
      ∧ addDouble (periodSummaryDouble [some double2_2, some double8_1]).regularHours
          (periodSummaryDouble [some double2_2, some double8_1]).overtimeHours ≠
        (periodSummaryDouble [some double2_2, some double8_1]).totalHours
      ∧ (periodSummaryDouble [some double2_2, some double8_1]).regularHours
          + (periodSummaryDouble [some double2_2, some double8_1]).overtimeHours ≠
        (periodSummaryDouble [some double2_2, some double8_1]).totalHours := by
  refine ⟨by decide, by decide, by decide, by decide⟩

theorem excessBits_le (fuel a j : Nat) (h : a / 2 ^ j < 2 ^ 53) : excessBits fuel a ≤ j := by
  induction fuel generalizing a j with
  | zero => simp [excessBits]
  | succ fuel ih =>
    unfold excessBits
    by_cases ha : a < 2 ^ 53
    · rw [if_pos ha]
      exact Nat.zero_le j
    · rw [if_neg ha]
      cases j with
      | zero =>
        simp at h
        exact absurd h ha
      | succ j =>
        have : a / 2 / 2 ^ j < 2 ^ 53 := by
          rw [Nat.div_div_eq_div_mul, ← pow_succ']
          exact h
        have := ih (a / 2) j this
        omega

theorem roundDouble_exact (n : Int) (j : Nat) (hdvd : ((2 ^ j : Nat) : Int) ∣ n)
    (hlt : n.natAbs < 2 ^ (53 + j)) : roundDouble n = n := by
  have hdvdN : 2 ^ j ∣ n.natAbs := by
    have h := Int.natAbs_dvd_natAbs.mpr hdvd
    rwa [Int.natAbs_ofNat] at h
  have hshift : excessBits n.natAbs n.natAbs ≤ j := by
    apply excessBits_le
    rw [Nat.div_lt_iff_lt_mul (by positivity)]
    rw [← pow_add]
    exact hlt
  have hpow : 2 ^ excessBits n.natAbs n.natAbs ∣ n.natAbs :=
    dvd_trans (pow_dvd_pow 2 hshift) hdvdN
  unfold roundDouble
  dsimp only
  have hr : n.natAbs % 2 ^ excessBits n.natAbs n.natAbs = 0 := Nat.mod_eq_zero_of_dvd hpow
  have hhalf : 0 < 2 ^ (excessBits n.natAbs n.natAbs - 1) := by positivity
  rw [hr]
  have hcond : ¬ (2 ^ (excessBits n.natAbs n.natAbs - 1) < 0 ∨
      (0 = 2 ^ (excessBits n.natAbs n.natAbs - 1) ∧
        n.natAbs / 2 ^ excessBits n.natAbs n.natAbs % 2 = 1)) := by
    rintro (h | ⟨h, _⟩)
    · exact absurd h (Nat.not_lt_zero _)
    · omega
  rw [if_neg hcond, Nat.div_mul_cancel hpow]
  exact Int.sign_mul_natAbs n

theorem roundDouble_exact_of_abs (n : Int) (j : Nat) (hdvd : ((2 ^ j : Nat) : Int) ∣ n)
    (hlt : |n| < ((2 ^ (53 + j) : Nat) : Int)) : roundDouble n = n := by
  apply roundDouble_exact n j hdvd
  have : ((n.natAbs : Nat) : Int) < ((2 ^ (53 + j) : Nat) : Int) := by
    rw [Int.natCast_natAbs]
    exact hlt
  exact_mod_cast this

theorem eightHours_pos : 0 < eightHours := by decide

theorem dvd_eightHours (j : Nat) (hj : j ≤ 131) : ((2 ^ j : Nat) : Int) ∣ eightHours := by
  unfold eightHours scaled
  rw [one_mul]
  exact Int.natCast_dvd_natCast.mpr (pow_dvd_pow 2 hj)

theorem exactSplit_step (j : Nat) (hj : j ≤ 131) (acc : DoubleSummary) (bound x : Int)
    (hacc : exactSplit j acc bound) (hdvd : ((2 ^ j : Nat) : Int) ∣ x)
    (hlt : bound + |x| < ((2 ^ (53 + j) : Nat) : Int)) :
    exactSplit j (summaryStepDouble acc (some x)) (bound + |x|) := by
  obtain ⟨hT, hR, hO, bT, bR, bO, hsum⟩ := hacc
  have hx0 : 0 ≤ |x| := abs_nonneg x
  unfold summaryStepDouble
  dsimp only
  by_cases h0 : x = 0
  · rw [if_pos h0]
    exact ⟨hT, hR, hO, by linarith, by linarith, by linarith, hsum⟩
  · rw [if_neg h0]
    have hTx : addDouble acc.totalHours x = acc.totalHours + x := by
      apply roundDouble_exact_of_abs _ j (dvd_add hT hdvd)
      have := abs_add acc.totalHours x
      linarith
    by_cases h8 : x ≤ eightHours
    · rw [if_pos h8]
      have hRx : addDouble acc.regularHours x = acc.regularHours + x := by
        apply roundDouble_exact_of_abs _ j (dvd_add hR hdvd)
        have := abs_add acc.regularHours x
        linarith
      rw [hTx, hRx]
      refine ⟨dvd_add hT hdvd, dvd_add hR hdvd, hO, ?_, ?_, by dsimp only; linarith,
        by dsimp only; linarith⟩
      · have := abs_add acc.totalHours x
        linarith
      · have := abs_add acc.regularHours x
        linarith
    · rw [if_neg h8]
      have h8lt : eightHours < x := not_le.mp h8
      have h8pos := eightHours_pos
      have hxabs : |x| = x := abs_of_pos (by linarith)
      have h8abs : |eightHours| = eightHours := abs_of_pos h8pos
      have hd8 := dvd_eightHours j hj
      have hsub : subDouble x eightHours = x - eightHours := by
        apply roundDouble_exact_of_abs _ j (dvd_sub hdvd hd8)
        rw [abs_of_pos (by linarith)]
        have : 0 ≤ bound := le_trans (abs_nonneg _) bT
        linarith
      have hsubabs : |x - eightHours| = x - eightHours := abs_of_pos (by linarith)
      have hR8 : addDouble acc.regularHours eightHours = acc.regularHours + eightHours := by
        apply roundDouble_exact_of_abs _ j (dvd_add hR hd8)
        have := abs_add acc.regularHours eightHours
        linarith
      have hOx : addDouble acc.overtimeHours (x - eightHours) =
          acc.overtimeHours + (x - eightHours) := by
        apply roundDouble_exact_of_abs _ j (dvd_add hO (dvd_sub hdvd hd8))
        have := abs_add acc.overtimeHours (x - eightHours)
        linarith
      rw [hTx, hsub, hR8, hOx]
      refine ⟨dvd_add hT hdvd, dvd_add hR hd8, dvd_add hO (dvd_sub hdvd hd8), ?_, ?_, ?_,
        by dsimp only; linarith⟩
      · have := abs_add acc.totalHours x
        linarith
      · have := abs_add acc.regularHours eightHours
        linarith
      · have := abs_add acc.overtimeHours (x - eightHours)
        linarith

theorem exactSplit_foldl (j : Nat) (hj : j ≤ 131) (hours : List (Option Int))
    (acc : DoubleSummary) (bound : Int) (hacc : exactSplit j acc bound)
    (hdvd : ∀ x, some x ∈ hours → ((2 ^ j : Nat) : Int) ∣ x)
    (hlt : bound + (magnitudes hours).sum < ((2 ^ (53 + j) : Nat) : Int)) :
    exactSplit j (hours.foldl summaryStepDouble acc)
      (bound + (magnitudes hours).sum) := by
  unfold magnitudes at hlt ⊢
  induction hours generalizing acc bound with
  | nil => simpa using hacc
  | cons h rest ih =>
    have hrest0 : 0 ≤ (rest.map (fun h => |h.getD 0|)).sum :=
      List.sum_nonneg (by
        intro y hy
        obtain ⟨z, _, rfl⟩ := List.mem_map.mp hy
        exact abs_nonneg _)
    simp only [List.map_cons, List.sum_cons] at hlt ⊢
    rw [List.foldl_cons, ← add_assoc]
    cases h with
    | none =>
      have hstep : exactSplit j (summaryStepDouble acc none) (bound + |(none : Option Int).getD 0|) := by
        simpa [summaryStepDouble] using hacc
      exact ih _ _ hstep (fun x hx => hdvd x (List.mem_cons_of_mem _ hx)) (by linarith)
    | some x =>
      have hstep := exactSplit_step j hj acc bound x hacc
        (hdvd x (List.mem_cons_self _ _)) (by simp only [Option.getD_some] at hlt; linarith)
      exact ih _ _ hstep (fun y hy => hdvd y (List.mem_cons_of_mem _ hy))
        (by simp only [Option.getD_some] at hlt ⊢; linarith)

theorem foldl_summaryStepDouble_le_eight (hours : List (Option Int)) (acc : DoubleSummary)
    (hle : ∀ x, some x ∈ hours → x ≤ eightHours)
    (hacc : acc.regularHours = acc.totalHours ∧ acc.overtimeHours = 0) :
    (hours.foldl summaryStepDouble acc).regularHours =
        (hours.foldl summaryStepDouble acc).totalHours
      ∧ (hours.foldl summaryStepDouble acc).overtimeHours = 0 := by
  induction hours generalizing acc with
  | nil => exact hacc
  | cons h rest ih =>
    rw [List.foldl_cons]
    apply ih _ (fun x hx => hle x (List.mem_cons_of_mem _ hx))
    cases h with
    | none => exact hacc
    | some x =>
      unfold summaryStepDouble
      dsimp only
      by_cases h0 : x = 0
      · rw [if_pos h0]
        exact hacc
      · rw [if_neg h0, if_pos (hle x (List.mem_cons_self _ _))]
        exact ⟨by dsimp only; rw [hacc.1], hacc.2⟩

/-- C27 (amended): on the double-precision accumulators of the summary,
`regularHours + overtimeHours = totalHours` holds exactly (a) when no entry's
`total_hours` exceeds 8, overtime then being 0 and regular and total receiving the
same additions, and (b) when every `total_hours` is a whole multiple of one
power-of-two step of at most 8 hours (`2^(j - 128)` hours with `j <= 131`) and the
magnitudes of the entries sum to less than `2^53` steps, every addition then being
exact; in case (b) the double sum `regularHours + overtimeHours` is `totalHours`
too. -/
theorem C27_split_where_additions_exact (j : Nat) (hours : List (Option Int)) :
    ((∀ x, some x ∈ hours → x ≤ eightHours) →
        (periodSummaryDouble hours).regularHours = (periodSummaryDouble hours).totalHours
          ∧ (periodSummaryDouble hours).overtimeHours = 0)
      ∧ (j ≤ 131 → (∀ x, some x ∈ hours → ((2 ^ j : Nat) : Int) ∣ x) →
          (magnitudes hours).sum < ((2 ^ (53 + j) : Nat) : Int) →
          (periodSummaryDouble hours).regularHours + (periodSummaryDouble hours).overtimeHours
              = (periodSummaryDouble hours).totalHours
            ∧ addDouble (periodSummaryDouble hours).regularHours
                (periodSummaryDouble hours).overtimeHours =
              (periodSummaryDouble hours).totalHours) := by
  constructor
  · intro hle
    exact foldl_summaryStepDouble_le_eight hours _ hle ⟨rfl, rfl⟩
  · intro hj hdvd hlt
    have hzero : exactSplit j { totalHours := 0, regularHours := 0, overtimeHours := 0 } 0 := by
      unfold exactSplit
      simp
    have hfold := exactSplit_foldl j hj hours _ 0 hzero hdvd (by linarith)
    obtain ⟨hT, _, _, bT, _, _, hsum⟩ := hfold
    refine ⟨hsum, ?_⟩
    unfold addDouble
    have hsum2 : (periodSummaryDouble hours).regularHours +
        (periodSummaryDouble hours).overtimeHours = (periodSummaryDouble hours).totalHours :=
      hsum
    rw [hsum2]
    apply roundDouble_exact_of_abs _ j hT
    have hb : |(periodSummaryDouble hours).totalHours| ≤ 0 + (magnitudes hours).sum := bT
    linarith

/-- Witness of the amended C27: entries of 6 and 6 hours (none above 8), and entries
of 9.5 and 6 hours (multiples of `2^-1` hours). -/
theorem C27_split_where_additions_exact_witness :
    ((periodSummaryDouble [some double6, some double6]).regularHours =
          (periodSummaryDouble [some double6, some double6]).totalHours
        ∧ (periodSummaryDouble [some double6, some double6]).overtimeHours = 0)
      ∧ ((periodSummaryDouble [some double9_5, some double6]).regularHours
            + (periodSummaryDouble [some double9_5, some double6]).overtimeHours =
          (periodSummaryDouble [some double9_5, some double6]).totalHours
        ∧ addDouble (periodSummaryDouble [some double9_5, some double6]).regularHours
            (periodSummaryDouble [some double9_5, some double6]).overtimeHours =
          (periodSummaryDouble [some double9_5, some double6]).totalHours) :=
  ⟨(C27_split_where_additions_exact 0 [some double6, some double6]).1 (by
      intro x hx
      simp only [List.mem_cons, List.mem_singleton, Option.some.injEq, List.not_mem_nil,
        or_false, or_self] at hx
      subst hx
      decide),
   (C27_split_where_additions_exact 127 [some double9_5, some double6]).2 (by decide) (by
      intro x hx
      simp only [List.mem_cons, List.mem_singleton, Option.some.injEq, List.not_mem_nil,
        or_false] at hx
      rcases hx with rfl | rfl
      · exact ⟨19, by decide⟩
      · exact ⟨12, by decide⟩) (by decide)⟩

end TimeTracking
